import Mathlib

/-!
Verification development for the two-agent negotiation experiment repository
(`two_agents.py`, `two_agents_asymmetric.py`, `single_agent.py`,
`analyze_results.py`, `analyze_results_asymmetric.py`,
`run_experiments.py`, `run_experiments_asymmetric.py`).

The Python sources are shallowly embedded: every LLM ("oracle") call site is a
field of an `Oracle` structure whose type records exactly the prompt-relevant
arguments the corresponding Python function receives, and each `main` is a pure
function of such an oracle that mirrors the source dataflow statement by
statement.  File writing is modelled by building the exact result line
(`List Char`); the analyzers' `re.search` extraction is modelled by a
leftmost-match scanner over `List Char`.
-/

-- ===========================================================================
-- Shared numeric/string utilities (decimal rendering as Python's str())
-- ===========================================================================

/-- One decimal digit as a character, as Python renders it. -/
def digitChr (n : Nat) : Char := Char.ofNat (48 + n)

/-- Little-endian base-10 digits with explicit fuel (so that the kernel can
evaluate it); agrees with `Nat.digits 10` whenever the fuel suffices. -/
def digitsFuel : Nat → Nat → List Nat
  | 0, _ => []
  | fuel + 1, n => if n = 0 then [] else n % 10 :: digitsFuel fuel (n / 10)

/-- Python `str(n)` for a natural number, as a character list. -/
def natStr (n : Nat) : List Char :=
  if n = 0 then ['0'] else ((digitsFuel n n).map digitChr).reverse

/-- Python `str(i)` for an integer. -/
def intStr (i : Int) : List Char :=
  if i < 0 then '-' :: natStr i.natAbs else natStr i.toNat

/-- Python `int(s)` on a string of decimal digits. -/
def digitsVal (s : List Char) : Nat :=
  s.foldl (fun a c => a * 10 + (c.toNat - 48)) 0

-- ===========================================================================
-- two_agents.py
-- ===========================================================================

namespace TwoAgents

/-- `RESULTS_FILE` constant of `two_agents.py`. -/
def RESULTS_FILE : String := "experiment_results_three_exchanges.txt"

/-- A collaborative option `{"upside": ..., "downside": ...}`. -/
structure CollabOption where
  upside : Int
  downside : Int
deriving DecidableEq

/-- The task dictionary built by `create_task`: options A/B/C are
collaborative, Y is the guaranteed individual option. -/
structure Task where
  task_id : Int
  A : CollabOption
  B : CollabOption
  C : CollabOption
  Y_guaranteed : Int
  u_value : ℚ
deriving DecidableEq

/-- `create_task(task_id, u_value)` from `two_agents.py`: returns the fixed
payoff structure with the given `u_value`; performs no validation and can
never fail. -/
def create_task (task_id : Int) (u_value : ℚ) : Task :=
  { task_id := task_id
    A := ⟨111, -90⟩
    B := ⟨92, -45⟩
    C := ⟨77, -15⟩
    Y_guaranteed := 50
    u_value := u_value }

/-- `check_strategy_mismatch(agent1_strategy, agent2_strategy)`:
`if agent1_strategy != agent2_strategy: return 1` else `return 0`. -/
def check_strategy_mismatch (agent1_strategy agent2_strategy : String) : Nat :=
  if agent1_strategy ≠ agent2_strategy then 1 else 0

/-- Parsed JSON payload of a belief-formation response
(`{"belief": ..., "reasoning": ..., "message_to_agent_X": ...}`); the
`reasoning` key is read but unused by `main`, so only the used keys appear. -/
structure BeliefResp where
  belief : Int
  message : String
deriving DecidableEq

/-- Parsed JSON payload of an exchange response
(`{"reply_to_agent_X"/"message_to_agent_X": ..., "updated_belief": ...,
"predicted_other_agent_belief": ...}`). -/
structure ReplyResp where
  text : String
  updated_belief : Int
  predicted_other_agent_belief : Int
deriving DecidableEq

/-- Parsed JSON payload of a decision response
(`{"choice": ..., "strategy": ..., "reasoning": ...}`). -/
structure Decision where
  choice : String
  strategy : String
  reasoning : String
deriving DecidableEq

/-- The reasoning oracle of `two_agents.py`: one field per LLM call site,
typed by exactly the prompt-relevant arguments the Python function receives
(the fixed task, then the positional arguments `main` passes).  Note that in
this file `main` passes the whole reply dict (not just the text) as the
conversation-history arguments of later calls, hence the `ReplyResp`-typed
history parameters. -/
structure Oracle where
  run_first_agent_belief : Task → BeliefResp
  run_second_agent_belief : Task → BeliefResp
  agent_2_reply_to_agent_1 : Task → String → Int → ReplyResp
  agent_1_reply_to_agent_2 : Task → String → ReplyResp → Int → ReplyResp
  agent_2_second_reply_to_agent_1 :
    Task → String → ReplyResp → ReplyResp → Int → ReplyResp
  agent_1_third_message_to_agent_2 :
    Task → String → ReplyResp → ReplyResp → ReplyResp → Int → ReplyResp
  agent_2_third_reply_to_agent_1 :
    Task → String → ReplyResp → ReplyResp → ReplyResp → ReplyResp → Int → ReplyResp
  run_first_agent_decision :
    Task → Int → Int → String → ReplyResp → ReplyResp → ReplyResp → ReplyResp →
      ReplyResp → Decision
  run_second_agent_decision :
    Task → Int → Int → String → ReplyResp → ReplyResp → ReplyResp → ReplyResp →
      ReplyResp → Decision

/-- Arguments `main` passes to a decision call (`run_first_agent_decision` /
`run_second_agent_decision`): own belief, the partner's belief, and the six
conversation items. -/
structure DecisionArgs where
  own_belief : Int
  partner_belief : Int
  m1 : String
  h1 : ReplyResp
  h2 : ReplyResp
  h3 : ReplyResp
  h4 : ReplyResp
  h5 : ReplyResp
deriving DecidableEq

/-- The fields `main` hands to `save_result_to_file` of `two_agents.py`,
which formats them into one result line unchanged. -/
structure Saved where
  task_id : Int
  u_value : ℚ
  agent1_belief : Int
  agent2_belief : Int
  agent1_choice : String
  agent1_strategy : String
  agent2_choice : String
  agent2_strategy : String
  mismatch : Nat
deriving DecidableEq

/-- The full trace of one `two_agents.py` trial: the two initial beliefs, the
five exchange responses `r1..r5` in call order, the belief argument `main`
passed to each exchange call, the decision calls' arguments and responses, the
mismatch flag and the fields handed to `save_result_to_file`. -/
structure Trace where
  agent1_belief : Int
  agent1_message : String
  agent2_belief : Int
  agent2_initial_message : String
  r1 : ReplyResp
  r2 : ReplyResp
  r3 : ReplyResp
  r4 : ReplyResp
  r5 : ReplyResp
  e1_belief_arg : Int
  e2_belief_arg : Int
  e3_belief_arg : Int
  e4_belief_arg : Int
  e5_belief_arg : Int
  d1_args : DecisionArgs
  d2_args : DecisionArgs
  agent1_decision : Decision
  agent2_decision : Decision
  mismatch : Nat
  saved : Saved

/-- `main()` of `two_agents.py`, step by step: beliefs, the five exchange
calls, the two decisions, the mismatch check.  Every argument below is the
literal Python argument: in particular each exchange and decision call
receives `agent1_belief` / `agent2_belief`, the *initial* beliefs — the
`updated_belief` values returned by the exchanges are never read back. -/
def main (o : Oracle) : Trace :=
  let task := create_task 1 (66/100)
  let a1b := o.run_first_agent_belief task
  let agent1_belief := a1b.belief
  let agent1_message := a1b.message
  let a2b := o.run_second_agent_belief task
  let agent2_belief := a2b.belief
  let agent2_initial_message := a2b.message
  let agent2_first_reply := o.agent_2_reply_to_agent_1 task agent1_message agent2_belief
  let agent1_second_message :=
    o.agent_1_reply_to_agent_2 task agent1_message agent2_first_reply agent1_belief
  let agent2_second_reply :=
    o.agent_2_second_reply_to_agent_1 task agent1_message agent2_first_reply
      agent1_second_message agent2_belief
  let agent1_third_message :=
    o.agent_1_third_message_to_agent_2 task agent1_message agent2_first_reply
      agent1_second_message agent2_second_reply agent1_belief
  let agent2_third_reply :=
    o.agent_2_third_reply_to_agent_1 task agent1_message agent2_first_reply
      agent1_second_message agent2_second_reply agent1_third_message agent2_belief
  let agent1_decision :=
    o.run_first_agent_decision task agent1_belief agent2_belief agent1_message
      agent2_first_reply agent1_second_message agent2_second_reply
      agent1_third_message agent2_third_reply
  let agent2_decision :=
    o.run_second_agent_decision task agent2_belief agent1_belief agent1_message
      agent2_first_reply agent1_second_message agent2_second_reply
      agent1_third_message agent2_third_reply
  let mismatch := check_strategy_mismatch agent1_decision.strategy agent2_decision.strategy
  { agent1_belief := agent1_belief
    agent1_message := agent1_message
    agent2_belief := agent2_belief
    agent2_initial_message := agent2_initial_message
    r1 := agent2_first_reply
    r2 := agent1_second_message
    r3 := agent2_second_reply
    r4 := agent1_third_message
    r5 := agent2_third_reply
    e1_belief_arg := agent2_belief
    e2_belief_arg := agent1_belief
    e3_belief_arg := agent2_belief
    e4_belief_arg := agent1_belief
    e5_belief_arg := agent2_belief
    d1_args := ⟨agent1_belief, agent2_belief, agent1_message, agent2_first_reply,
      agent1_second_message, agent2_second_reply, agent1_third_message, agent2_third_reply⟩
    d2_args := ⟨agent2_belief, agent1_belief, agent1_message, agent2_first_reply,
      agent1_second_message, agent2_second_reply, agent1_third_message, agent2_third_reply⟩
    agent1_decision := agent1_decision
    agent2_decision := agent2_decision
    mismatch := mismatch
    saved := ⟨task.task_id, task.u_value, agent1_belief, agent2_belief,
      agent1_decision.choice, agent1_decision.strategy, agent2_decision.choice,
      agent2_decision.strategy, mismatch⟩ }

/-- Agent 1's belief sequence over a trial, per the data model: the initial
belief followed by the `updated_belief` value of each of agent 1's exchange
responses (its second and third messages). -/
def agent1_beliefs (t : Trace) : List Int :=
  [t.agent1_belief, t.r2.updated_belief, t.r4.updated_belief]

/-- Agent 2's belief sequence over a trial: the initial belief followed by the
`updated_belief` value of each of agent 2's three replies. -/
def agent2_beliefs (t : Trace) : List Int :=
  [t.agent2_belief, t.r1.updated_belief, t.r3.updated_belief, t.r5.updated_belief]

end TwoAgents

namespace TwoAgents

/-- The oracle of `two_agents.py` with the outcome of each `json.loads` made
explicit: a call either yields the parsed payload or raises
`json.JSONDecodeError` (carried as the error message).  None of the call
sites in this file is wrapped in try/except. -/
structure EOracle where
  run_first_agent_belief : Task → Except String BeliefResp
  run_second_agent_belief : Task → Except String BeliefResp
  agent_2_reply_to_agent_1 : Task → String → Int → Except String ReplyResp
  agent_1_reply_to_agent_2 : Task → String → ReplyResp → Int → Except String ReplyResp
  agent_2_second_reply_to_agent_1 :
    Task → String → ReplyResp → ReplyResp → Int → Except String ReplyResp
  agent_1_third_message_to_agent_2 :
    Task → String → ReplyResp → ReplyResp → ReplyResp → Int → Except String ReplyResp
  agent_2_third_reply_to_agent_1 :
    Task → String → ReplyResp → ReplyResp → ReplyResp → ReplyResp → Int →
      Except String ReplyResp
  run_first_agent_decision :
    Task → Int → Int → String → ReplyResp → ReplyResp → ReplyResp → ReplyResp →
      ReplyResp → Except String Decision
  run_second_agent_decision :
    Task → Int → Int → String → ReplyResp → ReplyResp → ReplyResp → ReplyResp →
      ReplyResp → Except String Decision

/-- `main()` of `two_agents.py` with `json.loads` failures propagated: an
unhandled `JSONDecodeError` at any step aborts the trial before
`save_result_to_file` runs, so no record is persisted; there is no fallback
path.  On the all-parses-succeed path this computes exactly the `Saved`
fields of `main`. -/
def mainE (o : EOracle) : Except String Saved :=
  let task := create_task 1 (66/100)
  match o.run_first_agent_belief task with
  | .error e => .error e
  | .ok a1b =>
  match o.run_second_agent_belief task with
  | .error e => .error e
  | .ok a2b =>
  match o.agent_2_reply_to_agent_1 task a1b.message a2b.belief with
  | .error e => .error e
  | .ok r1 =>
  match o.agent_1_reply_to_agent_2 task a1b.message r1 a1b.belief with
  | .error e => .error e
  | .ok r2 =>
  match o.agent_2_second_reply_to_agent_1 task a1b.message r1 r2 a2b.belief with
  | .error e => .error e
  | .ok r3 =>
  match o.agent_1_third_message_to_agent_2 task a1b.message r1 r2 r3 a1b.belief with
  | .error e => .error e
  | .ok r4 =>
  match o.agent_2_third_reply_to_agent_1 task a1b.message r1 r2 r3 r4 a2b.belief with
  | .error e => .error e
  | .ok r5 =>
  match o.run_first_agent_decision task a1b.belief a2b.belief a1b.message r1 r2 r3 r4 r5 with
  | .error e => .error e
  | .ok d1 =>
  match o.run_second_agent_decision task a2b.belief a1b.belief a1b.message r1 r2 r3 r4 r5 with
  | .error e => .error e
  | .ok d2 =>
  .ok ⟨task.task_id, task.u_value, a1b.belief, a2b.belief, d1.choice, d1.strategy,
    d2.choice, d2.strategy, check_strategy_mismatch d1.strategy d2.strategy⟩

/-- Some call site on `main`'s execution path is the first whose `json.loads`
raises (with message `e`): every site before it parses, the site itself
errors.  The nine disjuncts are the nine call sites of `two_agents.py`'s
`main`, with exactly the arguments `main` passes them. -/
def failsAt (o : EOracle) (e : String) : Prop :=
  o.run_first_agent_belief (create_task 1 (66/100)) = .error e ∨
  ∃ a1b, o.run_first_agent_belief (create_task 1 (66/100)) = .ok a1b ∧
  (o.run_second_agent_belief (create_task 1 (66/100)) = .error e ∨
  ∃ a2b, o.run_second_agent_belief (create_task 1 (66/100)) = .ok a2b ∧
  (o.agent_2_reply_to_agent_1 (create_task 1 (66/100)) a1b.message a2b.belief
      = .error e ∨
  ∃ r1, o.agent_2_reply_to_agent_1 (create_task 1 (66/100)) a1b.message
      a2b.belief = .ok r1 ∧
  (o.agent_1_reply_to_agent_2 (create_task 1 (66/100)) a1b.message r1
      a1b.belief = .error e ∨
  ∃ r2, o.agent_1_reply_to_agent_2 (create_task 1 (66/100)) a1b.message r1
      a1b.belief = .ok r2 ∧
  (o.agent_2_second_reply_to_agent_1 (create_task 1 (66/100)) a1b.message r1 r2
      a2b.belief = .error e ∨
  ∃ r3, o.agent_2_second_reply_to_agent_1 (create_task 1 (66/100)) a1b.message
      r1 r2 a2b.belief = .ok r3 ∧
  (o.agent_1_third_message_to_agent_2 (create_task 1 (66/100)) a1b.message r1
      r2 r3 a1b.belief = .error e ∨
  ∃ r4, o.agent_1_third_message_to_agent_2 (create_task 1 (66/100)) a1b.message
      r1 r2 r3 a1b.belief = .ok r4 ∧
  (o.agent_2_third_reply_to_agent_1 (create_task 1 (66/100)) a1b.message r1 r2
      r3 r4 a2b.belief = .error e ∨
  ∃ r5, o.agent_2_third_reply_to_agent_1 (create_task 1 (66/100)) a1b.message
      r1 r2 r3 r4 a2b.belief = .ok r5 ∧
  (o.run_first_agent_decision (create_task 1 (66/100)) a1b.belief a2b.belief
      a1b.message r1 r2 r3 r4 r5 = .error e ∨
  ∃ d1, o.run_first_agent_decision (create_task 1 (66/100)) a1b.belief
      a2b.belief a1b.message r1 r2 r3 r4 r5 = .ok d1 ∧
  o.run_second_agent_decision (create_task 1 (66/100)) a2b.belief a1b.belief
      a1b.message r1 r2 r3 r4 r5 = .error e)))))))

end TwoAgents

-- ===========================================================================
-- single_agent.py
-- ===========================================================================

namespace SingleAgent

/-- `PARTNER_COOPERATION_RATE = 0.5`. -/
def PARTNER_COOPERATION_RATE : ℚ := 1/2

/-- `TECH_FAILURE_RATE = 0.05`. -/
def TECH_FAILURE_RATE : ℚ := 1/20

/-- The task dict of `single_agent.py` `create_task`. -/
structure SATask where
  task_id : Int
  difficulty : ℚ
  A : TwoAgents.CollabOption
  B : TwoAgents.CollabOption
  C : TwoAgents.CollabOption
  Y_guaranteed : Int
  u_value : ℚ
  partner_cooperation_rate : ℚ
deriving DecidableEq

/-- `create_task(task_id, difficulty)` of `single_agent.py`: fixed payoffs,
`u_value := difficulty`; no validation. -/
def create_task (task_id : Int) (difficulty : ℚ) : SATask :=
  { task_id := task_id
    difficulty := difficulty
    A := ⟨111, -90⟩
    B := ⟨92, -45⟩
    C := ⟨77, -15⟩
    Y_guaranteed := 50
    u_value := difficulty
    partner_cooperation_rate := PARTNER_COOPERATION_RATE }

/-- Parsed belief payload `{"belief": ..., "reasoning": ...}`. -/
structure BeliefData where
  belief : Int
  reasoning : String
deriving DecidableEq

/-- The upside the source looks up as `task["options"][choice]["upside"]`
(only reached for choices A/B/C). -/
def option_upside (task : SATask) (choice : String) : Int :=
  if choice = "A" then task.A.upside
  else if choice = "B" then task.B.upside
  else if choice = "C" then task.C.upside
  else 0

/-- The downside the source looks up as
`task["options"][choice]["downside"]`. -/
def option_downside (task : SATask) (choice : String) : Int :=
  if choice = "A" then task.A.downside
  else if choice = "B" then task.B.downside
  else if choice = "C" then task.C.downside
  else 0

/-- The result dict returned by `run_single_agent` (the fields the source
stores; `timestamp` is external I/O and omitted). -/
structure SAResult where
  task_id : Int
  belief : Int
  belief_reasoning : String
  decision : TwoAgents.Decision
  u_value : ℚ
  partner_cooperation_rate : ℚ
  partner_cooperated_this_trial : Bool
  technical_failure_rate : ℚ
  outcome : String
  points_earned : Int
  rational_decision : Bool
  baseline_rational : Bool
deriving DecidableEq

/-- `run_single_agent(task)` of `single_agent.py`, with the two `json.loads`
outcomes and the two random draws passed in explicitly.  Unlike the two-agent
files, both parses here are wrapped in try/except: a failed belief parse
falls back to belief 50 with reasoning "default", and a failed decision parse
falls back to the safe decision `{"choice": "Y", "strategy": "individual",
"reasoning": "parse_error"}`; the trial then completes normally. -/
def run_single_agent (task : SATask)
    (belief_parse : Except String BeliefData)
    (decision_parse : Except String TwoAgents.Decision)
    (partner_cooperated : Bool) (technical_ok : Bool) : SAResult :=
  let belief_data := match belief_parse with
    | .ok d => d
    | .error _ => ⟨50, "default"⟩
  let belief := belief_data.belief
  let decision_data := match decision_parse with
    | .ok d => d
    | .error _ => ⟨"Y", "individual", "parse_error"⟩
  let outcome_points : String × Int :=
    if decision_data.strategy = "collaborative" ∧
        (decision_data.choice = "A" ∨ decision_data.choice = "B" ∨
         decision_data.choice = "C") then
      if partner_cooperated ∧ technical_ok then
        ("success", option_upside task decision_data.choice)
      else
        ("failure", option_downside task decision_data.choice)
    else
      ("independent", task.Y_guaranteed)
  { task_id := task.task_id
    belief := belief
    belief_reasoning := belief_data.reasoning
    decision := decision_data
    u_value := task.u_value
    partner_cooperation_rate := task.partner_cooperation_rate
    partner_cooperated_this_trial := partner_cooperated
    technical_failure_rate := TECH_FAILURE_RATE
    outcome := outcome_points.1
    points_earned := outcome_points.2
    rational_decision :=
      decide ((belief : ℚ) > task.u_value * 100) ==
        decide (decision_data.strategy = "collaborative")
    baseline_rational :=
      decide (task.partner_cooperation_rate * (1 - TECH_FAILURE_RATE) * 100 >
          task.u_value * 100) ==
        decide (decision_data.strategy = "collaborative") }

end SingleAgent

-- ===========================================================================
-- two_agents_asymmetric.py: task creation and constants
-- ===========================================================================

namespace TwoAgentsAsym

/-- `RESULTS_FILE` constant of `two_agents_asymmetric.py` (line 100). -/
def RESULTS_FILE : String := "experiment_results_three_exchanges.txt"

/-- Agent 2's task dictionary in `create_asymmetric_tasks`: options K/L/M
collaborative, Y guaranteed. -/
structure Task2 where
  task_id : Int
  agent_id : Int
  K : TwoAgents.CollabOption
  L : TwoAgents.CollabOption
  M : TwoAgents.CollabOption
  Y_guaranteed : Int
  u_value : ℚ
deriving DecidableEq

/-- Agent 1's task dictionary in `create_asymmetric_tasks` (same shape as the
symmetric task, plus the `agent_id` key). -/
structure Task1 where
  task_id : Int
  agent_id : Int
  A : TwoAgents.CollabOption
  B : TwoAgents.CollabOption
  C : TwoAgents.CollabOption
  Y_guaranteed : Int
  u_value : ℚ
deriving DecidableEq

/-- `create_asymmetric_tasks(task_id)`: both tasks are fixed literals, agent 1
with u-value 0.66 and agent 2 with u-value 0.75; no validation is performed. -/
def create_asymmetric_tasks (task_id : Int) : Task1 × Task2 :=
  ( { task_id := task_id, agent_id := 1
      A := ⟨111, -90⟩, B := ⟨92, -45⟩, C := ⟨77, -15⟩
      Y_guaranteed := 50, u_value := 66/100 }
  , { task_id := task_id, agent_id := 2
      K := ⟨90, -90⟩, L := ⟨75, -45⟩, M := ⟨65, -15⟩
      Y_guaranteed := 45, u_value := 75/100 } )

/-- `check_strategy_mismatch` of `two_agents_asymmetric.py` (identical text to
the symmetric one). -/
def check_strategy_mismatch (agent1_strategy agent2_strategy : String) : Nat :=
  if agent1_strategy ≠ agent2_strategy then 1 else 0

/-- The reasoning oracle of `two_agents_asymmetric.py`: one field per LLM call
site, typed by the arguments the Python function receives.  Unlike the
symmetric file, `main` here extracts the reply *text* before passing it on,
so the conversation-history parameters are `String`s. -/
structure Oracle where
  run_first_agent_belief : Task1 → TwoAgents.BeliefResp
  run_second_agent_belief : Task2 → TwoAgents.BeliefResp
  agent_2_reply_to_agent_1 : Task2 → String → Int → TwoAgents.ReplyResp
  agent_1_reply_to_agent_2 : Task1 → String → String → Int → TwoAgents.ReplyResp
  agent_2_second_reply_to_agent_1 :
    Task2 → String → String → String → Int → Int → TwoAgents.ReplyResp
  agent_1_third_message_to_agent_2 :
    Task1 → String → String → String → String → Int → Int → TwoAgents.ReplyResp
  agent_2_third_reply_to_agent_1 :
    Task2 → String → String → String → String → String → Int → Int → TwoAgents.ReplyResp
  run_first_agent_decision :
    Task1 → Int → Int → Int → Int → String → String → String → String → String →
      String → TwoAgents.Decision
  run_second_agent_decision :
    Task2 → Int → Int → Int → Int → String → String → String → String → String →
      String → TwoAgents.Decision

/-- The arguments `main` passes to one exchange call, together with the parsed
response: the ordered conversation history, the belief argument, and (for the
calls whose Python function takes one) the previous-prediction argument. -/
structure ExchangeCall where
  history : List String
  own_belief : Int
  previous_prediction : Option Int
  response : TwoAgents.ReplyResp
deriving DecidableEq

/-- The arguments `main` passes to a decision call in the asymmetric file:
own initial belief, partner's initial belief, own updated belief, own latest
prediction of the partner's belief, and the six-message history. -/
structure DecisionArgs where
  own_initial : Int
  partner_initial : Int
  own_updated : Int
  own_prediction : Int
  history : List String
deriving DecidableEq

/-- The fields `main` hands to `save_result_to_file` (which then formats them
into one result line). -/
structure Saved where
  task_id : Int
  agent1_u_value : ℚ
  agent2_u_value : ℚ
  agent1_belief : Int
  agent2_belief : Int
  agent1_choice : String
  agent1_strategy : String
  agent2_choice : String
  agent2_strategy : String
  mismatch : Nat
deriving DecidableEq

/-- The full trace of one `two_agents_asymmetric.py` trial. -/
structure Trace where
  agent1_belief : Int
  agent1_message : String
  agent2_belief : Int
  agent2_initial_message : String
  c1 : ExchangeCall
  c2 : ExchangeCall
  c3 : ExchangeCall
  c4 : ExchangeCall
  c5 : ExchangeCall
  d1_args : DecisionArgs
  d2_args : DecisionArgs
  agent1_decision : TwoAgents.Decision
  agent2_decision : TwoAgents.Decision
  mismatch : Nat
  saved : Saved

/-- `main()` of `two_agents_asymmetric.py`, step by step.  Here the updated
beliefs and predictions *are* read back: the second/third exchange calls
receive `agent2_updated_belief_1`, `agent1_updated_belief_1`,
`agent2_updated_belief_2` and the corresponding previous predictions, and the
decision calls receive `agent1_updated_belief_2` / `agent2_updated_belief_3`
together with both initial beliefs. -/
def main (o : Oracle) : Trace :=
  let (task_agent1, task_agent2) := create_asymmetric_tasks 1
  let a1b := o.run_first_agent_belief task_agent1
  let agent1_belief := a1b.belief
  let agent1_message := a1b.message
  let a2b := o.run_second_agent_belief task_agent2
  let agent2_belief := a2b.belief
  let agent2_initial_message := a2b.message
  let r1 := o.agent_2_reply_to_agent_1 task_agent2 agent1_message agent2_belief
  let agent2_first_reply := r1.text
  let agent2_updated_belief_1 := r1.updated_belief
  let agent2_predicted_agent1_belief_1 := r1.predicted_other_agent_belief
  let r2 := o.agent_1_reply_to_agent_2 task_agent1 agent1_message agent2_first_reply
    agent1_belief
  let agent1_second_message := r2.text
  let agent1_updated_belief_1 := r2.updated_belief
  let agent1_predicted_agent2_belief_1 := r2.predicted_other_agent_belief
  let r3 := o.agent_2_second_reply_to_agent_1 task_agent2 agent1_message
    agent2_first_reply agent1_second_message agent2_updated_belief_1
    agent2_predicted_agent1_belief_1
  let agent2_second_reply := r3.text
  let agent2_updated_belief_2 := r3.updated_belief
  let agent2_predicted_agent1_belief_2 := r3.predicted_other_agent_belief
  let r4 := o.agent_1_third_message_to_agent_2 task_agent1 agent1_message
    agent2_first_reply agent1_second_message agent2_second_reply
    agent1_updated_belief_1 agent1_predicted_agent2_belief_1
  let agent1_third_message := r4.text
  let agent1_updated_belief_2 := r4.updated_belief
  let agent1_predicted_agent2_belief_2 := r4.predicted_other_agent_belief
  let r5 := o.agent_2_third_reply_to_agent_1 task_agent2 agent1_message
    agent2_first_reply agent1_second_message agent2_second_reply
    agent1_third_message agent2_updated_belief_2 agent2_predicted_agent1_belief_2
  let agent2_third_reply := r5.text
  let agent2_updated_belief_3 := r5.updated_belief
  let agent2_predicted_agent1_belief_3 := r5.predicted_other_agent_belief
  let agent1_decision := o.run_first_agent_decision task_agent1 agent1_belief
    agent2_belief agent1_updated_belief_2 agent1_predicted_agent2_belief_2
    agent1_message agent2_first_reply agent1_second_message agent2_second_reply
    agent1_third_message agent2_third_reply
  let agent2_decision := o.run_second_agent_decision task_agent2 agent2_belief
    agent1_belief agent2_updated_belief_3 agent2_predicted_agent1_belief_3
    agent1_message agent2_first_reply agent1_second_message agent2_second_reply
    agent1_third_message agent2_third_reply
  let mismatch := check_strategy_mismatch agent1_decision.strategy agent2_decision.strategy
  { agent1_belief := agent1_belief
    agent1_message := agent1_message
    agent2_belief := agent2_belief
    agent2_initial_message := agent2_initial_message
    c1 := ⟨[agent1_message], agent2_belief, none, r1⟩
    c2 := ⟨[agent1_message, agent2_first_reply], agent1_belief, none, r2⟩
    c3 := ⟨[agent1_message, agent2_first_reply, agent1_second_message],
      agent2_updated_belief_1, some agent2_predicted_agent1_belief_1, r3⟩
    c4 := ⟨[agent1_message, agent2_first_reply, agent1_second_message,
      agent2_second_reply], agent1_updated_belief_1,
      some agent1_predicted_agent2_belief_1, r4⟩
    c5 := ⟨[agent1_message, agent2_first_reply, agent1_second_message,
      agent2_second_reply, agent1_third_message], agent2_updated_belief_2,
      some agent2_predicted_agent1_belief_2, r5⟩
    d1_args := ⟨agent1_belief, agent2_belief, agent1_updated_belief_2,
      agent1_predicted_agent2_belief_2,
      [agent1_message, agent2_first_reply, agent1_second_message,
        agent2_second_reply, agent1_third_message, agent2_third_reply]⟩
    d2_args := ⟨agent2_belief, agent1_belief, agent2_updated_belief_3,
      agent2_predicted_agent1_belief_3,
      [agent1_message, agent2_first_reply, agent1_second_message,
        agent2_second_reply, agent1_third_message, agent2_third_reply]⟩
    agent1_decision := agent1_decision
    agent2_decision := agent2_decision
    mismatch := mismatch
    saved := ⟨task_agent1.task_id, task_agent1.u_value, task_agent2.u_value,
      agent1_belief, agent2_belief, agent1_decision.choice,
      agent1_decision.strategy, agent2_decision.choice,
      agent2_decision.strategy, mismatch⟩ }

/-- The ordered conversation of a trial: agent 1's opening message followed by
the five exchange messages. -/
def messages (t : Trace) : List String :=
  [t.agent1_message, t.c1.response.text, t.c2.response.text,
   t.c3.response.text, t.c4.response.text, t.c5.response.text]

/-- Agent 1's belief sequence: initial belief plus one updated belief per
exchange by agent 1 (its second and third messages). -/
def agent1_beliefs (t : Trace) : List Int :=
  [t.agent1_belief, t.c2.response.updated_belief, t.c4.response.updated_belief]

/-- Agent 2's belief sequence: initial belief plus one updated belief per
reply by agent 2. -/
def agent2_beliefs (t : Trace) : List Int :=
  [t.agent2_belief, t.c1.response.updated_belief, t.c3.response.updated_belief,
   t.c5.response.updated_belief]

/-- Agent 1's prediction sequence (one prediction per exchange by agent 1). -/
def agent1_predictions (t : Trace) : List Int :=
  [t.c2.response.predicted_other_agent_belief,
   t.c4.response.predicted_other_agent_belief]

/-- Agent 2's prediction sequence (one prediction per reply by agent 2). -/
def agent2_predictions (t : Trace) : List Int :=
  [t.c1.response.predicted_other_agent_belief,
   t.c3.response.predicted_other_agent_belief,
   t.c5.response.predicted_other_agent_belief]

/-- The values `save_result_to_file` of `two_agents_asymmetric.py`
interpolates into one result line, each already rendered the way the f-string
renders it: the timestamp as its character sequence, the task id / beliefs /
mismatch flag as decimal numbers (`natStr`), the two u-values as the decimal
numerals Python's `str()` produces for the floats (e.g. "0.66"), and the
choice/strategy fields as the strings of the Decision dicts. -/
structure SavedRecord where
  timestamp : List Char
  task_id : Nat
  agent1_u_value : List Char
  agent2_u_value : List Char
  agent1_belief : Nat
  agent2_belief : Nat
  agent1_choice : List Char
  agent1_strategy : List Char
  agent2_choice : List Char
  agent2_strategy : List Char
  mismatch : Nat
deriving DecidableEq

/-- The `result_line` f-string of `save_result_to_file`
(`two_agents_asymmetric.py` lines 937-949): the eleven fields joined by
`" | "` with their key prefixes, terminated by a newline.  Each
`" | Key:"` separator is written here as `" | " ++ "Key:"`. -/
def result_line (t : SavedRecord) : List Char :=
  t.timestamp ++
  " | ".data ++ "Task_ID:".data ++ natStr t.task_id ++
  " | ".data ++ "Agent1_U_Value:".data ++ t.agent1_u_value ++
  " | ".data ++ "Agent2_U_Value:".data ++ t.agent2_u_value ++
  " | ".data ++ "Agent1_Belief:".data ++ natStr t.agent1_belief ++
  " | ".data ++ "Agent2_Belief:".data ++ natStr t.agent2_belief ++
  " | ".data ++ "Agent1_Choice:".data ++ t.agent1_choice ++
  " | ".data ++ "Agent1_Strategy:".data ++ t.agent1_strategy ++
  " | ".data ++ "Agent2_Choice:".data ++ t.agent2_choice ++
  " | ".data ++ "Agent2_Strategy:".data ++ t.agent2_strategy ++
  " | ".data ++ "Mismatch:".data ++ natStr t.mismatch ++
  "\n".data

/-- Suffix of the result line from the `Mismatch:` key on. -/
def tail_m (t : SavedRecord) : List Char :=
  " | ".data ++ "Mismatch:".data ++ natStr t.mismatch

/-- Suffix of the result line from the `Agent2_Strategy:` key on. -/
def tail_s2 (t : SavedRecord) : List Char :=
  " | ".data ++ "Agent2_Strategy:".data ++ t.agent2_strategy ++ tail_m t

/-- Suffix of the result line from the `Agent2_Choice:` key on. -/
def tail_c2 (t : SavedRecord) : List Char :=
  " | ".data ++ "Agent2_Choice:".data ++ t.agent2_choice ++ tail_s2 t

/-- Suffix of the result line from the `Agent1_Strategy:` key on. -/
def tail_s1 (t : SavedRecord) : List Char :=
  " | ".data ++ "Agent1_Strategy:".data ++ t.agent1_strategy ++ tail_c2 t

/-- Suffix of the result line from the `Agent1_Choice:` key on. -/
def tail_c1 (t : SavedRecord) : List Char :=
  " | ".data ++ "Agent1_Choice:".data ++ t.agent1_choice ++ tail_s1 t

/-- Suffix of the result line from the `Agent2_Belief:` key on. -/
def tail_b2 (t : SavedRecord) : List Char :=
  " | ".data ++ "Agent2_Belief:".data ++ natStr t.agent2_belief ++ tail_c1 t

/-- Suffix of the result line from the `Agent1_Belief:` key on. -/
def tail_b1 (t : SavedRecord) : List Char :=
  " | ".data ++ "Agent1_Belief:".data ++ natStr t.agent1_belief ++ tail_b2 t

/-- Suffix of the result line from the `Agent2_U_Value:` key on. -/
def tail_u2 (t : SavedRecord) : List Char :=
  " | ".data ++ "Agent2_U_Value:".data ++ t.agent2_u_value ++ tail_b1 t

/-- Suffix of the result line starting with the `Agent1_U_Value:` key. -/
def tail_u1 (t : SavedRecord) : List Char :=
  "Agent1_U_Value:".data ++ t.agent1_u_value ++ tail_u2 t

/-- `result_line` after `str.strip()` (the trailing newline removed). -/
def stripped_line (t : SavedRecord) : List Char :=
  t.timestamp ++
  " | ".data ++ "Task_ID:".data ++ natStr t.task_id ++
  " | ".data ++ "Agent1_U_Value:".data ++ t.agent1_u_value ++
  " | ".data ++ "Agent2_U_Value:".data ++ t.agent2_u_value ++
  " | ".data ++ "Agent1_Belief:".data ++ natStr t.agent1_belief ++
  " | ".data ++ "Agent2_Belief:".data ++ natStr t.agent2_belief ++
  " | ".data ++ "Agent1_Choice:".data ++ t.agent1_choice ++
  " | ".data ++ "Agent1_Strategy:".data ++ t.agent1_strategy ++
  " | ".data ++ "Agent2_Choice:".data ++ t.agent2_choice ++
  " | ".data ++ "Agent2_Strategy:".data ++ t.agent2_strategy ++
  " | ".data ++ "Mismatch:".data ++ natStr t.mismatch

end TwoAgentsAsym

namespace TwoAgentsAsym

/-- The oracle of `two_agents_asymmetric.py` with the outcome of each
`json.loads` made explicit: a call either yields the parsed payload or raises
`json.JSONDecodeError` (carried as the error message).  None of the call
sites in this file is wrapped in try/except either: the fallback code at
lines 236-249 exists only as comments. -/
structure EOracle where
  run_first_agent_belief : Task1 → Except String TwoAgents.BeliefResp
  run_second_agent_belief : Task2 → Except String TwoAgents.BeliefResp
  agent_2_reply_to_agent_1 :
    Task2 → String → Int → Except String TwoAgents.ReplyResp
  agent_1_reply_to_agent_2 :
    Task1 → String → String → Int → Except String TwoAgents.ReplyResp
  agent_2_second_reply_to_agent_1 :
    Task2 → String → String → String → Int → Int →
      Except String TwoAgents.ReplyResp
  agent_1_third_message_to_agent_2 :
    Task1 → String → String → String → String → Int → Int →
      Except String TwoAgents.ReplyResp
  agent_2_third_reply_to_agent_1 :
    Task2 → String → String → String → String → String → Int → Int →
      Except String TwoAgents.ReplyResp
  run_first_agent_decision :
    Task1 → Int → Int → Int → Int → String → String → String → String →
      String → String → Except String TwoAgents.Decision
  run_second_agent_decision :
    Task2 → Int → Int → Int → Int → String → String → String → String →
      String → String → Except String TwoAgents.Decision

/-- `main()` of `two_agents_asymmetric.py` with `json.loads` failures
propagated: an unhandled `JSONDecodeError` at any step aborts the trial
before `save_result_to_file` runs, so no record is persisted; there is no
fallback path.  On the all-parses-succeed path this computes exactly the
`Saved` fields of `main` (updated beliefs and predictions threaded as
there). -/
def mainE (o : EOracle) : Except String Saved :=
  match o.run_first_agent_belief (create_asymmetric_tasks 1).1 with
  | .error e => .error e
  | .ok a1b =>
  match o.run_second_agent_belief (create_asymmetric_tasks 1).2 with
  | .error e => .error e
  | .ok a2b =>
  match o.agent_2_reply_to_agent_1 (create_asymmetric_tasks 1).2 a1b.message
      a2b.belief with
  | .error e => .error e
  | .ok r1 =>
  match o.agent_1_reply_to_agent_2 (create_asymmetric_tasks 1).1 a1b.message
      r1.text a1b.belief with
  | .error e => .error e
  | .ok r2 =>
  match o.agent_2_second_reply_to_agent_1 (create_asymmetric_tasks 1).2
      a1b.message r1.text r2.text r1.updated_belief
      r1.predicted_other_agent_belief with
  | .error e => .error e
  | .ok r3 =>
  match o.agent_1_third_message_to_agent_2 (create_asymmetric_tasks 1).1
      a1b.message r1.text r2.text r3.text r2.updated_belief
      r2.predicted_other_agent_belief with
  | .error e => .error e
  | .ok r4 =>
  match o.agent_2_third_reply_to_agent_1 (create_asymmetric_tasks 1).2
      a1b.message r1.text r2.text r3.text r4.text r3.updated_belief
      r3.predicted_other_agent_belief with
  | .error e => .error e
  | .ok r5 =>
  match o.run_first_agent_decision (create_asymmetric_tasks 1).1 a1b.belief
      a2b.belief r4.updated_belief r4.predicted_other_agent_belief a1b.message
      r1.text r2.text r3.text r4.text r5.text with
  | .error e => .error e
  | .ok d1 =>
  match o.run_second_agent_decision (create_asymmetric_tasks 1).2 a2b.belief
      a1b.belief r5.updated_belief r5.predicted_other_agent_belief a1b.message
      r1.text r2.text r3.text r4.text r5.text with
  | .error e => .error e
  | .ok d2 =>
  .ok ⟨(create_asymmetric_tasks 1).1.task_id,
    (create_asymmetric_tasks 1).1.u_value, (create_asymmetric_tasks 1).2.u_value,
    a1b.belief, a2b.belief, d1.choice, d1.strategy, d2.choice, d2.strategy,
    check_strategy_mismatch d1.strategy d2.strategy⟩

/-- Some call site on the asymmetric `main`'s execution path is the first
whose `json.loads` raises (with message `e`): every site before it parses,
the site itself errors.  The nine disjuncts are the nine call sites of
`two_agents_asymmetric.py`'s `main`, with exactly the arguments `main`
passes them. -/
def failsAt (o : EOracle) (e : String) : Prop :=
  o.run_first_agent_belief (create_asymmetric_tasks 1).1 = .error e ∨
  ∃ a1b, o.run_first_agent_belief (create_asymmetric_tasks 1).1 = .ok a1b ∧
  (o.run_second_agent_belief (create_asymmetric_tasks 1).2 = .error e ∨
  ∃ a2b, o.run_second_agent_belief (create_asymmetric_tasks 1).2 = .ok a2b ∧
  (o.agent_2_reply_to_agent_1 (create_asymmetric_tasks 1).2 a1b.message
      a2b.belief = .error e ∨
  ∃ r1, o.agent_2_reply_to_agent_1 (create_asymmetric_tasks 1).2 a1b.message
      a2b.belief = .ok r1 ∧
  (o.agent_1_reply_to_agent_2 (create_asymmetric_tasks 1).1 a1b.message
      r1.text a1b.belief = .error e ∨
  ∃ r2, o.agent_1_reply_to_agent_2 (create_asymmetric_tasks 1).1 a1b.message
      r1.text a1b.belief = .ok r2 ∧
  (o.agent_2_second_reply_to_agent_1 (create_asymmetric_tasks 1).2 a1b.message
      r1.text r2.text r1.updated_belief r1.predicted_other_agent_belief
      = .error e ∨
  ∃ r3, o.agent_2_second_reply_to_agent_1 (create_asymmetric_tasks 1).2
      a1b.message r1.text r2.text r1.updated_belief
      r1.predicted_other_agent_belief = .ok r3 ∧
  (o.agent_1_third_message_to_agent_2 (create_asymmetric_tasks 1).1
      a1b.message r1.text r2.text r3.text r2.updated_belief
      r2.predicted_other_agent_belief = .error e ∨
  ∃ r4, o.agent_1_third_message_to_agent_2 (create_asymmetric_tasks 1).1
      a1b.message r1.text r2.text r3.text r2.updated_belief
      r2.predicted_other_agent_belief = .ok r4 ∧
  (o.agent_2_third_reply_to_agent_1 (create_asymmetric_tasks 1).2 a1b.message
      r1.text r2.text r3.text r4.text r3.updated_belief
      r3.predicted_other_agent_belief = .error e ∨
  ∃ r5, o.agent_2_third_reply_to_agent_1 (create_asymmetric_tasks 1).2
      a1b.message r1.text r2.text r3.text r4.text r3.updated_belief
      r3.predicted_other_agent_belief = .ok r5 ∧
  (o.run_first_agent_decision (create_asymmetric_tasks 1).1 a1b.belief
      a2b.belief r4.updated_belief r4.predicted_other_agent_belief a1b.message
      r1.text r2.text r3.text r4.text r5.text = .error e ∨
  ∃ d1, o.run_first_agent_decision (create_asymmetric_tasks 1).1 a1b.belief
      a2b.belief r4.updated_belief r4.predicted_other_agent_belief a1b.message
      r1.text r2.text r3.text r4.text r5.text = .ok d1 ∧
  o.run_second_agent_decision (create_asymmetric_tasks 1).2 a2b.belief
      a1b.belief r5.updated_belief r5.predicted_other_agent_belief a1b.message
      r1.text r2.text r3.text r4.text r5.text = .error e)))))))

end TwoAgentsAsym

-- ===========================================================================
-- analyzer file-name constants
-- ===========================================================================

namespace AnalyzeResults

/-- `results_file` read by `analyze_results.py` `main` (line 200). -/
def results_file : String := "experiment_results_three_exchanges.txt"

end AnalyzeResults

-- ===========================================================================
-- Regex-style field extraction (models `re.search(key + class, line)`)
-- ===========================================================================

/-- Python whitespace as stripped by `str.strip()` (the characters that occur
in this development). -/
def isPySpace (c : Char) : Bool :=
  c = ' ' || c = '\t' || c = '\n' || c = '\r'

/-- `line.strip()`. -/
def pyStrip (l : List Char) : List Char :=
  ((l.dropWhile isPySpace).reverse.dropWhile isPySpace).reverse

/-- Character class `\d`. -/
def isDigitB (c : Char) : Bool := c.isDigit

/-- Character class `[\d.]`. -/
def isUDigit (c : Char) : Bool := c.isDigit || c = '.'

/-- Character class `\w` (ASCII fragment). -/
def isWordChar (c : Char) : Bool := c.isAlphanum || c = '_'

/-- Character class `[A-Z]`. -/
def isUpperAZ (c : Char) : Bool := decide ('A' ≤ c) && decide (c ≤ 'Z')

/-- Does the whole pattern `key` + `class+` match at the head of `l`? -/
def keyGoodAt (key : List Char) (good : Char → Bool) (l : List Char) : Bool :=
  key.isPrefixOf l && !((l.drop key.length).takeWhile good).isEmpty

/-- `re.search(key + "(class+)", line)`: the capture of the leftmost position
where the literal `key` is followed by at least one `good` character; the
capture is the maximal (greedy) run of `good` characters after `key`. -/
def extractKey (key : List Char) (good : Char → Bool) : List Char → Option (List Char)
  | [] => none
  | c :: rest =>
    if keyGoodAt key good (c :: rest) then
      some (((c :: rest).drop key.length).takeWhile good)
    else extractKey key good rest

/-- Does `key` + one `good` character match at the head of `l`? -/
def keyCharAt (key : List Char) (good : Char → Bool) (l : List Char) : Bool :=
  key.isPrefixOf l &&
    (match (l.drop key.length).head? with
     | some d => good d
     | none => false)

/-- `re.search(key + "(class)", line)` with a single-character capture, as in
`Agent1_Choice:([A-Z])`. -/
def extractKeyChar (key : List Char) (good : Char → Bool) : List Char → Option Char
  | [] => none
  | c :: rest =>
    if keyCharAt key good (c :: rest) then ((c :: rest).drop key.length).head?
    else extractKeyChar key good rest

/-- No match of `key` + one `good` character starts inside the region `p` of
the text `p ++ l` (a match may well start inside `l`). -/
def NoViable (key : List Char) (good : Char → Bool) : List Char → List Char → Prop
  | [], _ => True
  | c :: p, l => keyGoodAt key good (c :: (p ++ l)) = false ∧ NoViable key good p l

/-- Decidable sufficient condition on a concrete literal `p`: no nonempty
suffix of `p` is comparable (by the prefix order) with `key`; then no match of
`key` can start inside `p`, whatever follows. -/
def litSafeB (p key : List Char) : Bool :=
  p.tails.all fun s => s.isEmpty || (!(s.isPrefixOf key) && !(key.isPrefixOf s))

/-- The characters Python's `%Y-%m-%d %H:%M:%S` timestamp format produces. -/
def tsOkB (c : Char) : Bool :=
  c.isDigit || c = '-' || c = ':' || c = ' '

namespace AnalyzeAsym

/-- `results_file` read by `analyze_results_asymmetric.py` `main` (line 341). -/
def results_file : String := "experiment_results_asymmetric.txt"

/-- One parsed result dict of `parse_results_file`.  The two u-values are kept
as the numeral substrings matched by `([\d.]+)` (the source converts them with
`float(...)`; the numeral determines the float).  Beliefs are the integers
matched by `(\d+)`, choices the single `[A-Z]` characters; both are optional,
exactly as in the source.  Strategies are the `(\w+)` matches. -/
structure Record where
  agent1_u_value : List Char
  agent2_u_value : List Char
  agent1_belief : Option Nat
  agent2_belief : Option Nat
  agent1_choice : Option Char
  agent2_choice : Option Char
  agent1_strategy : List Char
  agent2_strategy : List Char
  mismatch : Nat
deriving DecidableEq

/-- The per-line body of `parse_results_file` of
`analyze_results_asymmetric.py`: strip the line, skip it when empty, run the
nine regex searches, and keep the record only when the five required matches
(`Agent1_U_Value`, `Agent2_U_Value`, `Agent1_Strategy`, `Agent2_Strategy`,
`Mismatch`) all succeed. -/
def parse_results_line (raw : List Char) : Option Record :=
  let line := pyStrip raw
  if line.isEmpty then none
  else
    match extractKey "Agent1_U_Value:".data isUDigit line,
          extractKey "Agent2_U_Value:".data isUDigit line,
          extractKey "Agent1_Strategy:".data isWordChar line,
          extractKey "Agent2_Strategy:".data isWordChar line,
          extractKey "Mismatch:".data isDigitB line with
    | some u1, some u2, some s1, some s2, some m =>
        some { agent1_u_value := u1
               agent2_u_value := u2
               agent1_belief := (extractKey "Agent1_Belief:".data isDigitB line).map digitsVal
               agent2_belief := (extractKey "Agent2_Belief:".data isDigitB line).map digitsVal
               agent1_choice := extractKeyChar "Agent1_Choice:".data isUpperAZ line
               agent2_choice := extractKeyChar "Agent2_Choice:".data isUpperAZ line
               agent1_strategy := s1
               agent2_strategy := s2
               mismatch := digitsVal m }
    | _, _, _, _, _ => none

/-- The statistics dict built by `calculate_statistics_for_pair`; the two
`defaultdict(int)` choice counters are association lists, the belief samples
are kept in list order. -/
structure Stats where
  total : Nat
  mismatches : Nat
  both_collaborative : Nat
  both_individual : Nat
  agent1_defects : Nat
  agent2_defects : Nat
  agent1_choices : List (Char × Nat)
  agent2_choices : List (Char × Nat)
  beliefs_agent1 : List Nat
  beliefs_agent2 : List Nat
  u_pair : List Char × List Char
deriving DecidableEq

/-- `defaultdict(int)` increment for a choice counter. -/
def bump : List (Char × Nat) → Char → List (Char × Nat)
  | [], c => [(c, 1)]
  | (k, v) :: rest, c =>
    if k = c then (k, v + 1) :: rest else (k, v) :: bump rest c

/-- The strategy-outcome if/elif chain of the loop body of
`calculate_statistics_for_pair`. -/
def strat_update (s : Stats) (r : Record) : Stats :=
  if r.agent1_strategy = "collaborative".data ∧
      r.agent2_strategy = "collaborative".data then
    { s with both_collaborative := s.both_collaborative + 1 }
  else if r.agent1_strategy = "individual".data ∧
      r.agent2_strategy = "individual".data then
    { s with both_individual := s.both_individual + 1 }
  else if r.agent1_strategy = "individual".data ∧
      r.agent2_strategy = "collaborative".data then
    { s with agent1_defects := s.agent1_defects + 1 }
  else if r.agent1_strategy = "collaborative".data ∧
      r.agent2_strategy = "individual".data then
    { s with agent2_defects := s.agent2_defects + 1 }
  else s

/-- The choice-distribution part of the loop body (`if result['agent1_choice']`). -/
def choice_update (s : Stats) (r : Record) : Stats :=
  let s := match r.agent1_choice with
    | some c => { s with agent1_choices := bump s.agent1_choices c }
    | none => s
  match r.agent2_choice with
  | some c => { s with agent2_choices := bump s.agent2_choices c }
  | none => s

/-- The belief-sample part of the loop body
(`if result['agent1_belief'] is not None`). -/
def belief_update (s : Stats) (r : Record) : Stats :=
  let s := match r.agent1_belief with
    | some b => { s with beliefs_agent1 := s.beliefs_agent1 ++ [b] }
    | none => s
  match r.agent2_belief with
  | some b => { s with beliefs_agent2 := s.beliefs_agent2 ++ [b] }
  | none => s

/-- One iteration of `for result in results` in
`calculate_statistics_for_pair`. -/
def update_stats (s : Stats) (r : Record) : Stats :=
  belief_update (choice_update (strat_update s r) r) r

/-- `calculate_statistics_for_pair(results)`: `None` on an empty list,
otherwise the initial dict (with `total`, `mismatches` and `u_pair` filled in
upfront) folded through the loop body over all records. -/
def calculate_statistics_for_pair (results : List Record) : Option Stats :=
  match results with
  | [] => none
  | r0 :: _ =>
    some (results.foldl update_stats
      { total := results.length
        mismatches := (results.map Record.mismatch).sum
        both_collaborative := 0
        both_individual := 0
        agent1_defects := 0
        agent2_defects := 0
        agent1_choices := []
        agent2_choices := []
        beliefs_agent1 := []
        beliefs_agent2 := []
        u_pair := (r0.agent1_u_value, r0.agent2_u_value) })

/-- Both strategies of a record are among the two standard values. -/
def strategies_okB (r : Record) : Bool :=
  (r.agent1_strategy == "collaborative".data || r.agent1_strategy == "individual".data) &&
  (r.agent2_strategy == "collaborative".data || r.agent2_strategy == "individual".data)

/-- The partition invariant, as a decidable property of the aggregator's
output: the four outcome counters sum to the group total. -/
def partition_holdsB : Option Stats → Bool
  | none => false
  | some s =>
    s.both_collaborative + s.both_individual + s.agent1_defects +
      s.agent2_defects == s.total

/-- Both final strategies are "collaborative". -/
def pBothCollab (r : Record) : Bool :=
  decide (r.agent1_strategy = "collaborative".data ∧
    r.agent2_strategy = "collaborative".data)

/-- Both final strategies are "individual". -/
def pBothIndiv (r : Record) : Bool :=
  decide (r.agent1_strategy = "individual".data ∧
    r.agent2_strategy = "individual".data)

/-- Agent 1 individual, agent 2 collaborative (the branch the source counts as
`agent1_defects`). -/
def pDefect1 (r : Record) : Bool :=
  decide (r.agent1_strategy = "individual".data ∧
    r.agent2_strategy = "collaborative".data)

/-- Agent 1 collaborative, agent 2 individual (the branch the source counts as
`agent2_defects`). -/
def pDefect2 (r : Record) : Bool :=
  decide (r.agent1_strategy = "collaborative".data ∧
    r.agent2_strategy = "individual".data)

end AnalyzeAsym

-- ===========================================================================
-- Concrete parsed records for the aggregator claims
-- ===========================================================================

/-- A persisted result line whose `Agent1_Strategy` field is the non-standard
word "cooperative"; the asymmetric parser accepts it (`(\w+)` matches any
word). -/
def cexLineC4 : List Char :=
  ("2025-01-01 00:00:00 | Task_ID:1 | Agent1_U_Value:0.66 | " ++
   "Agent2_U_Value:0.75 | Agent1_Belief:70 | Agent2_Belief:60 | " ++
   "Agent1_Choice:A | Agent1_Strategy:cooperative | Agent2_Choice:L | " ++
   "Agent2_Strategy:collaborative | Mismatch:1\n").data

/-- The record `parse_results_file` extracts from `cexLineC4`. -/
def cexRecordC4 : AnalyzeAsym.Record :=
  { agent1_u_value := "0.66".data
    agent2_u_value := "0.75".data
    agent1_belief := some 70
    agent2_belief := some 60
    agent1_choice := some 'A'
    agent2_choice := some 'L'
    agent1_strategy := "cooperative".data
    agent2_strategy := "collaborative".data
    mismatch := 1 }

/-- A parsed record in which agent 1 chose individual and agent 2 chose
collaborative. -/
def cexRecordC5 : AnalyzeAsym.Record :=
  { agent1_u_value := "0.66".data
    agent2_u_value := "0.75".data
    agent1_belief := some 55
    agent2_belief := some 80
    agent1_choice := some 'Y'
    agent2_choice := some 'L'
    agent1_strategy := "individual".data
    agent2_strategy := "collaborative".data
    mismatch := 1 }

/-- The statistics of the single-record group `[cexRecordC5]`. -/
def cexStatsC5 : AnalyzeAsym.Stats :=
  { total := 1
    mismatches := 1
    both_collaborative := 0
    both_individual := 0
    agent1_defects := 1
    agent2_defects := 0
    agent1_choices := [('Y', 1)]
    agent2_choices := [('L', 1)]
    beliefs_agent1 := [55]
    beliefs_agent2 := [80]
    u_pair := ("0.66".data, "0.75".data) }

/-- A parsed record with both strategies standard ("collaborative" for both
agents), used as a witness group. -/
def witRecordC4 : AnalyzeAsym.Record :=
  { agent1_u_value := "0.66".data
    agent2_u_value := "0.75".data
    agent1_belief := some 70
    agent2_belief := some 80
    agent1_choice := some 'A'
    agent2_choice := some 'K'
    agent1_strategy := "collaborative".data
    agent2_strategy := "collaborative".data
    mismatch := 0 }

/-- A parsed record in which agent 1 chose collaborative and agent 2 chose
individual, used as a witness group. -/
def witRecordC5 : AnalyzeAsym.Record :=
  { agent1_u_value := "0.66".data
    agent2_u_value := "0.75".data
    agent1_belief := some 75
    agent2_belief := some 40
    agent1_choice := some 'B'
    agent2_choice := some 'Y'
    agent1_strategy := "collaborative".data
    agent2_strategy := "individual".data
    mismatch := 1 }

/-- The statistics of the single-record group `[witRecordC5]`. -/
def witStatsC5 : AnalyzeAsym.Stats :=
  { total := 1
    mismatches := 1
    both_collaborative := 0
    both_individual := 0
    agent1_defects := 0
    agent2_defects := 1
    agent1_choices := [('B', 1)]
    agent2_choices := [('Y', 1)]
    beliefs_agent1 := [75]
    beliefs_agent2 := [40]
    u_pair := ("0.66".data, "0.75".data) }

-- ===========================================================================
-- Concrete oracles used to falsify claims on the symmetric variant
-- ===========================================================================

/-- A concrete symmetric-variant oracle in which agent 1's belief evolves
(initial 70, updated to 80 then 85 during the exchanges). -/
def cexOracleC1 : TwoAgents.Oracle :=
  { run_first_agent_belief := fun _ => ⟨70, "m1"⟩
    run_second_agent_belief := fun _ => ⟨60, "n1"⟩
    agent_2_reply_to_agent_1 := fun _ _ _ => ⟨"r1", 61, 71⟩
    agent_1_reply_to_agent_2 := fun _ _ _ _ => ⟨"r2", 80, 62⟩
    agent_2_second_reply_to_agent_1 := fun _ _ _ _ _ => ⟨"r3", 62, 72⟩
    agent_1_third_message_to_agent_2 := fun _ _ _ _ _ _ => ⟨"r4", 85, 63⟩
    agent_2_third_reply_to_agent_1 := fun _ _ _ _ _ _ _ => ⟨"r5", 63, 73⟩
    run_first_agent_decision := fun _ _ _ _ _ _ _ _ _ => ⟨"A", "collaborative", "x"⟩
    run_second_agent_decision := fun _ _ _ _ _ _ _ _ _ => ⟨"Y", "individual", "y"⟩ }

/-- A concrete symmetric-variant oracle in which agent 2's belief rises from
60 to 75 in its first reply. -/
def cexOracleC2 : TwoAgents.Oracle :=
  { run_first_agent_belief := fun _ => ⟨70, "m1"⟩
    run_second_agent_belief := fun _ => ⟨60, "n1"⟩
    agent_2_reply_to_agent_1 := fun _ _ _ => ⟨"r1", 75, 71⟩
    agent_1_reply_to_agent_2 := fun _ _ _ _ => ⟨"r2", 70, 62⟩
    agent_2_second_reply_to_agent_1 := fun _ _ _ _ _ => ⟨"r3", 77, 72⟩
    agent_1_third_message_to_agent_2 := fun _ _ _ _ _ _ => ⟨"r4", 70, 63⟩
    agent_2_third_reply_to_agent_1 := fun _ _ _ _ _ _ _ => ⟨"r5", 78, 73⟩
    run_first_agent_decision := fun _ _ _ _ _ _ _ _ _ => ⟨"A", "collaborative", "x"⟩
    run_second_agent_decision := fun _ _ _ _ _ _ _ _ _ => ⟨"L", "collaborative", "y"⟩ }

/-- A concrete symmetric-variant oracle whose agent-1 decision is internally
inconsistent: choice "Y" (the safe option id) with strategy "collaborative". -/
def cexOracleC7 : TwoAgents.Oracle :=
  { run_first_agent_belief := fun _ => ⟨70, "m1"⟩
    run_second_agent_belief := fun _ => ⟨60, "n1"⟩
    agent_2_reply_to_agent_1 := fun _ _ _ => ⟨"r1", 61, 71⟩
    agent_1_reply_to_agent_2 := fun _ _ _ _ => ⟨"r2", 70, 62⟩
    agent_2_second_reply_to_agent_1 := fun _ _ _ _ _ => ⟨"r3", 62, 72⟩
    agent_1_third_message_to_agent_2 := fun _ _ _ _ _ _ => ⟨"r4", 70, 63⟩
    agent_2_third_reply_to_agent_1 := fun _ _ _ _ _ _ _ => ⟨"r5", 63, 73⟩
    run_first_agent_decision := fun _ _ _ _ _ _ _ _ _ => ⟨"Y", "collaborative", "x"⟩
    run_second_agent_decision := fun _ _ _ _ _ _ _ _ _ => ⟨"Y", "individual", "y"⟩ }

/-- A fallible symmetric-variant oracle whose agent-2 belief response is not
valid JSON: `json.loads` raises. -/
def cexEOracleC6 : TwoAgents.EOracle :=
  { run_first_agent_belief := fun _ => .ok ⟨70, "m1"⟩
    run_second_agent_belief := fun _ =>
      .error "Expecting value: line 1 column 1 (char 0)"
    agent_2_reply_to_agent_1 := fun _ _ _ => .ok ⟨"r1", 61, 71⟩
    agent_1_reply_to_agent_2 := fun _ _ _ _ => .ok ⟨"r2", 70, 62⟩
    agent_2_second_reply_to_agent_1 := fun _ _ _ _ _ => .ok ⟨"r3", 62, 72⟩
    agent_1_third_message_to_agent_2 := fun _ _ _ _ _ _ => .ok ⟨"r4", 70, 63⟩
    agent_2_third_reply_to_agent_1 := fun _ _ _ _ _ _ _ => .ok ⟨"r5", 63, 73⟩
    run_first_agent_decision := fun _ _ _ _ _ _ _ _ _ =>
      .ok ⟨"A", "collaborative", "x"⟩
    run_second_agent_decision := fun _ _ _ _ _ _ _ _ _ =>
      .ok ⟨"Y", "individual", "y"⟩ }

/-- A fallible symmetric-variant oracle (distinct from `cexEOracleC6`) whose
agent-2 belief response is malformed, used for the amended-claim witness. -/
def witEOracleC6 : TwoAgents.EOracle :=
  { run_first_agent_belief := fun _ => .ok ⟨65, "hello"⟩
    run_second_agent_belief := fun _ =>
      .error "Unterminated string starting at: line 1 column 12 (char 11)"
    agent_2_reply_to_agent_1 := fun _ _ _ => .ok ⟨"r1", 61, 71⟩
    agent_1_reply_to_agent_2 := fun _ _ _ _ => .ok ⟨"r2", 70, 62⟩
    agent_2_second_reply_to_agent_1 := fun _ _ _ _ _ => .ok ⟨"r3", 62, 72⟩
    agent_1_third_message_to_agent_2 := fun _ _ _ _ _ _ => .ok ⟨"r4", 70, 63⟩
    agent_2_third_reply_to_agent_1 := fun _ _ _ _ _ _ _ => .ok ⟨"r5", 63, 73⟩
    run_first_agent_decision := fun _ _ _ _ _ _ _ _ _ =>
      .ok ⟨"A", "collaborative", "x"⟩
    run_second_agent_decision := fun _ _ _ _ _ _ _ _ _ =>
      .ok ⟨"Y", "individual", "y"⟩ }

/-- A single-agent task used for the C6 witness. -/
def witTaskC6 : SingleAgent.SATask := SingleAgent.create_task 1 (45/100)

/-- A fallible asymmetric-variant oracle whose agent-2 belief response is not
valid JSON: `json.loads` raises. -/
def cexAEOracleC6 : TwoAgentsAsym.EOracle :=
  { run_first_agent_belief := fun _ => .ok ⟨70, "m1"⟩
    run_second_agent_belief := fun _ =>
      .error "Expecting value: line 1 column 1 (char 0)"
    agent_2_reply_to_agent_1 := fun _ _ _ => .ok ⟨"r1", 61, 71⟩
    agent_1_reply_to_agent_2 := fun _ _ _ _ => .ok ⟨"r2", 70, 62⟩
    agent_2_second_reply_to_agent_1 := fun _ _ _ _ _ _ => .ok ⟨"r3", 62, 72⟩
    agent_1_third_message_to_agent_2 := fun _ _ _ _ _ _ _ => .ok ⟨"r4", 70, 63⟩
    agent_2_third_reply_to_agent_1 := fun _ _ _ _ _ _ _ _ => .ok ⟨"r5", 63, 73⟩
    run_first_agent_decision := fun _ _ _ _ _ _ _ _ _ _ _ =>
      .ok ⟨"A", "collaborative", "x"⟩
    run_second_agent_decision := fun _ _ _ _ _ _ _ _ _ _ _ =>
      .ok ⟨"Y", "individual", "y"⟩ }

/-- A fallible asymmetric-variant oracle (distinct from `cexAEOracleC6`)
whose third exchange reply is malformed, used for the amended-claim witness:
the failure here sits in the middle of the conversation, after four
successful parses. -/
def witAEOracleC6 : TwoAgentsAsym.EOracle :=
  { run_first_agent_belief := fun _ => .ok ⟨65, "hello"⟩
    run_second_agent_belief := fun _ => .ok ⟨55, "n1"⟩
    agent_2_reply_to_agent_1 := fun _ _ _ => .ok ⟨"r1", 61, 71⟩
    agent_1_reply_to_agent_2 := fun _ _ _ _ => .ok ⟨"r2", 70, 62⟩
    agent_2_second_reply_to_agent_1 := fun _ _ _ _ _ _ =>
      .error "Extra data: line 1 column 5 (char 4)"
    agent_1_third_message_to_agent_2 := fun _ _ _ _ _ _ _ => .ok ⟨"r4", 70, 63⟩
    agent_2_third_reply_to_agent_1 := fun _ _ _ _ _ _ _ _ => .ok ⟨"r5", 63, 73⟩
    run_first_agent_decision := fun _ _ _ _ _ _ _ _ _ _ _ =>
      .ok ⟨"A", "collaborative", "x"⟩
    run_second_agent_decision := fun _ _ _ _ _ _ _ _ _ _ _ =>
      .ok ⟨"Y", "individual", "y"⟩ }

/-- A saved asymmetric trial record. -/
def cexRecordC9a : TwoAgentsAsym.SavedRecord :=
  { timestamp := "2025-01-01 00:00:00".data
    task_id := 1
    agent1_u_value := "0.66".data
    agent2_u_value := "0.75".data
    agent1_belief := 70
    agent2_belief := 60
    agent1_choice := "A".data
    agent1_strategy := "collaborative".data
    agent2_choice := "Y".data
    agent2_strategy := "individual".data
    mismatch := 1 }

/-- The same saved record as `cexRecordC9a` except for its timestamp. -/
def cexRecordC9b : TwoAgentsAsym.SavedRecord :=
  { timestamp := "2099-12-31 23:59:59".data
    task_id := 1
    agent1_u_value := "0.66".data
    agent2_u_value := "0.75".data
    agent1_belief := 70
    agent2_belief := 60
    agent1_choice := "A".data
    agent1_strategy := "collaborative".data
    agent2_choice := "Y".data
    agent2_strategy := "individual".data
    mismatch := 1 }

/-- The record the asymmetric parser extracts from the serialized form of
both `cexRecordC9a` and `cexRecordC9b`. -/
def cexParsedC9 : AnalyzeAsym.Record :=
  { agent1_u_value := "0.66".data
    agent2_u_value := "0.75".data
    agent1_belief := some 70
    agent2_belief := some 60
    agent1_choice := some 'A'
    agent2_choice := some 'Y'
    agent1_strategy := "collaborative".data
    agent2_strategy := "individual".data
    mismatch := 1 }

/-- A saved asymmetric trial record used as the round-trip witness. -/
def witRecordC9 : TwoAgentsAsym.SavedRecord :=
  { timestamp := "2025-10-12 08:30:00".data
    task_id := 1
    agent1_u_value := "0.66".data
    agent2_u_value := "0.75".data
    agent1_belief := 72
    agent2_belief := 58
    agent1_choice := "B".data
    agent1_strategy := "collaborative".data
    agent2_choice := "L".data
    agent2_strategy := "collaborative".data
    mismatch := 0 }

-- ===========================================================================
-- Helper lemmas about the aggregator fold
-- ===========================================================================

namespace AnalyzeAsym

theorem belief_update_counters (s : Stats) (r : Record) :
    (belief_update s r).total = s.total ∧
    (belief_update s r).both_collaborative = s.both_collaborative ∧
    (belief_update s r).both_individual = s.both_individual ∧
    (belief_update s r).agent1_defects = s.agent1_defects ∧
    (belief_update s r).agent2_defects = s.agent2_defects := by
  unfold belief_update
  cases r.agent1_belief <;> cases r.agent2_belief <;> exact ⟨rfl, rfl, rfl, rfl, rfl⟩

theorem choice_update_counters (s : Stats) (r : Record) :
    (choice_update s r).total = s.total ∧
    (choice_update s r).both_collaborative = s.both_collaborative ∧
    (choice_update s r).both_individual = s.both_individual ∧
    (choice_update s r).agent1_defects = s.agent1_defects ∧
    (choice_update s r).agent2_defects = s.agent2_defects := by
  unfold choice_update
  cases r.agent1_choice <;> cases r.agent2_choice <;> exact ⟨rfl, rfl, rfl, rfl, rfl⟩

theorem collab_ne_indiv : "collaborative".data ≠ "individual".data := by decide

theorem strat_update_total (s : Stats) (r : Record) :
    (strat_update s r).total = s.total := by
  unfold strat_update
  split_ifs <;> rfl

theorem strat_update_bc (s : Stats) (r : Record) :
    (strat_update s r).both_collaborative =
      s.both_collaborative + (pBothCollab r).toNat := by
  unfold strat_update pBothCollab
  split_ifs with h1 h2 h3 h4 <;>
    simp [h1]

theorem strat_update_bi (s : Stats) (r : Record) :
    (strat_update s r).both_individual =
      s.both_individual + (pBothIndiv r).toNat := by
  unfold strat_update pBothIndiv
  split_ifs with h1 h2 h3 h4
  · have : ¬(r.agent1_strategy = "individual".data ∧
        r.agent2_strategy = "individual".data) := by
      rintro ⟨x, -⟩
      exact collab_ne_indiv (h1.1 ▸ x)
    simp [this]
  · simp [h2]
  · simp [h2]
  · simp [h2]
  · simp [h2]

theorem strat_update_d1 (s : Stats) (r : Record) :
    (strat_update s r).agent1_defects =
      s.agent1_defects + (pDefect1 r).toNat := by
  unfold strat_update pDefect1
  split_ifs with h1 h2 h3 h4
  · have : ¬(r.agent1_strategy = "individual".data ∧
        r.agent2_strategy = "collaborative".data) := by
      rintro ⟨x, -⟩
      exact collab_ne_indiv (h1.1 ▸ x)
    simp [this]
  · have : ¬(r.agent1_strategy = "individual".data ∧
        r.agent2_strategy = "collaborative".data) := by
      rintro ⟨-, y⟩
      exact collab_ne_indiv (y ▸ h2.2)
    simp [this]
  · simp [h3]
  · simp [h3]
  · simp [h3]

theorem strat_update_d2 (s : Stats) (r : Record) :
    (strat_update s r).agent2_defects =
      s.agent2_defects + (pDefect2 r).toNat := by
  unfold strat_update pDefect2
  split_ifs with h1 h2 h3 h4
  · have : ¬(r.agent1_strategy = "collaborative".data ∧
        r.agent2_strategy = "individual".data) := by
      rintro ⟨-, y⟩
      exact collab_ne_indiv (h1.2 ▸ y)
    simp [this]
  · have : ¬(r.agent1_strategy = "collaborative".data ∧
        r.agent2_strategy = "individual".data) := by
      rintro ⟨x, -⟩
      exact collab_ne_indiv (x ▸ h2.1)
    simp [this]
  · have : ¬(r.agent1_strategy = "collaborative".data ∧
        r.agent2_strategy = "individual".data) := by
      rintro ⟨x, -⟩
      exact collab_ne_indiv (x ▸ h3.1)
    simp [this]
  · simp [h4]
  · simp [h4]

theorem update_stats_total (s : Stats) (r : Record) :
    (update_stats s r).total = s.total := by
  unfold update_stats
  rw [(belief_update_counters _ r).1, (choice_update_counters _ r).1,
    strat_update_total]

theorem update_stats_bc (s : Stats) (r : Record) :
    (update_stats s r).both_collaborative =
      s.both_collaborative + (pBothCollab r).toNat := by
  unfold update_stats
  rw [(belief_update_counters _ r).2.1, (choice_update_counters _ r).2.1,
    strat_update_bc]

theorem update_stats_bi (s : Stats) (r : Record) :
    (update_stats s r).both_individual =
      s.both_individual + (pBothIndiv r).toNat := by
  unfold update_stats
  rw [(belief_update_counters _ r).2.2.1, (choice_update_counters _ r).2.2.1,
    strat_update_bi]

theorem update_stats_d1 (s : Stats) (r : Record) :
    (update_stats s r).agent1_defects =
      s.agent1_defects + (pDefect1 r).toNat := by
  unfold update_stats
  rw [(belief_update_counters _ r).2.2.2.1, (choice_update_counters _ r).2.2.2.1,
    strat_update_d1]

theorem update_stats_d2 (s : Stats) (r : Record) :
    (update_stats s r).agent2_defects =
      s.agent2_defects + (pDefect2 r).toNat := by
  unfold update_stats
  rw [(belief_update_counters _ r).2.2.2.2, (choice_update_counters _ r).2.2.2.2,
    strat_update_d2]

theorem foldl_counter (f : Stats → Nat) (p : Record → Bool)
    (hstep : ∀ s r, f (update_stats s r) = f s + (p r).toNat) :
    ∀ (rs : List Record) (s : Stats),
      f (rs.foldl update_stats s) = f s + rs.countP p := by
  intro rs
  induction rs with
  | nil => intro s; simp
  | cons r rest ih =>
    intro s
    rw [List.foldl_cons, ih, hstep, List.countP_cons]
    cases hp : p r <;> simp [hp] <;> omega

theorem foldl_total (rs : List Record) (s : Stats) :
    (rs.foldl update_stats s).total = s.total := by
  have := foldl_counter (fun s => s.total) (fun _ => false)
    (fun s r => by simp [update_stats_total]) rs s
  simpa using this

/-- Each record whose strategies are among the two standard values falls into
exactly one of the four outcome categories. -/
theorem four_way_split (r : Record) (h : strategies_okB r = true) :
    (pBothCollab r).toNat + (pBothIndiv r).toNat + (pDefect1 r).toNat +
      (pDefect2 r).toNat = 1 := by
  unfold strategies_okB at h
  simp only [Bool.and_eq_true, Bool.or_eq_true, beq_iff_eq] at h
  obtain ⟨h1 | h1, h2 | h2⟩ := h <;>
    simp [pBothCollab, pBothIndiv, pDefect1, pDefect2, h1, h2,
      collab_ne_indiv, Ne.symm collab_ne_indiv]

theorem countP_partition (rs : List AnalyzeAsym.Record)
    (h : ∀ r ∈ rs, strategies_okB r = true) :
    rs.countP pBothCollab + rs.countP pBothIndiv + rs.countP pDefect1 +
      rs.countP pDefect2 = rs.length := by
  induction rs with
  | nil => simp
  | cons r rest ih =>
    have hr := four_way_split r (h r (by simp))
    have hrest := ih (fun x hx => h x (by simp [hx]))
    simp only [List.countP_cons, List.length_cons]
    rcases hb1 : pBothCollab r <;> rcases hb2 : pBothIndiv r <;>
      rcases hb3 : pDefect1 r <;> rcases hb4 : pDefect2 r <;>
      simp [hb1, hb2, hb3, hb4] at hr ⊢ <;> omega

end AnalyzeAsym

-- ===========================================================================
-- Helper lemmas about the regex-style scanner
-- ===========================================================================

theorem class_ne {f : Char → Bool} {c k : Char} (hc : f c = true)
    (hk : f k = false) : c ≠ k := by
  intro e
  subst e
  simp [hc] at hk

theorem nil_isPrefixOf (l : List Char) : ([] : List Char).isPrefixOf l = true := by
  cases l <;> rfl

theorem isPrefixOf_append_self :
    ∀ (l x : List Char), l.isPrefixOf (l ++ x) = true
  | [], x => nil_isPrefixOf x
  | c :: l, x => by simp [List.isPrefixOf, isPrefixOf_append_self l x]

theorem isPrefixOf_length_le :
    ∀ {l₁ l₂ : List Char}, l₁.isPrefixOf l₂ = true → l₁.length ≤ l₂.length
  | [], _, _ => Nat.zero_le _
  | _ :: _, [], h => nomatch h
  | a :: l₁, b :: l₂, h => by
    simp only [List.isPrefixOf, Bool.and_eq_true] at h
    simpa using isPrefixOf_length_le h.2

theorem isPrefixOf_mem :
    ∀ {l₁ l₂ : List Char}, l₁.isPrefixOf l₂ = true → ∀ c ∈ l₁, c ∈ l₂
  | [], _, _, c, hc => by simp at hc
  | _ :: _, [], h, _, _ => nomatch h
  | a :: l₁, b :: l₂, h, c, hc => by
    simp only [List.isPrefixOf, Bool.and_eq_true, beq_iff_eq] at h
    rcases List.mem_cons.mp hc with rfl | hc
    · simp [h.1]
    · exact List.mem_cons_of_mem _ (isPrefixOf_mem h.2 c hc)

theorem isPrefixOf_eq_of_le :
    ∀ {l₁ l₂ : List Char}, l₁.isPrefixOf l₂ = true → l₂.length ≤ l₁.length →
      l₁ = l₂
  | [], [], _, _ => rfl
  | [], _ :: _, _, hl => by simp at hl
  | _ :: _, [], h, _ => nomatch h
  | a :: l₁, b :: l₂, h, hl => by
    simp only [List.isPrefixOf, Bool.and_eq_true, beq_iff_eq] at h
    simp only [List.length_cons, Nat.succ_le_succ_iff] at hl
    rw [h.1, isPrefixOf_eq_of_le h.2 hl]

theorem isPrefixOf_append_split :
    ∀ (key w l : List Char), key.isPrefixOf (w ++ l) = true →
      key.isPrefixOf w = true ∨
        (w.isPrefixOf key = true ∧ (key.drop w.length).isPrefixOf l = true)
  | key, [], l, h => Or.inr ⟨nil_isPrefixOf key, by simpa using h⟩
  | [], _ :: _, _, _ => Or.inl (nil_isPrefixOf _)
  | k :: ks, a :: w, l, h => by
    simp only [List.cons_append, List.isPrefixOf, Bool.and_eq_true] at h
    rcases isPrefixOf_append_split ks w l h.2 with hp | ⟨hp, hd⟩
    · exact Or.inl (by simp [List.isPrefixOf, h.1, hp])
    · refine Or.inr ⟨by simp [List.isPrefixOf, beq_iff_eq,
        (beq_iff_eq.mp h.1).symm, hp], ?_⟩
      simpa using hd

theorem keyGoodAt_eq_keyCharAt (key : List Char) (good : Char → Bool)
    (l : List Char) : keyGoodAt key good l = keyCharAt key good l := by
  unfold keyGoodAt keyCharAt
  cases h : l.drop key.length with
  | nil => simp
  | cons d ds => cases hg : good d <;> simp [List.takeWhile_cons, hg]

theorem takeWhile_full (good : Char → Bool) :
    ∀ (v rest : List Char), (∀ c ∈ v, good c = true) →
      (∀ d, rest.head? = some d → good d = false) →
      (v ++ rest).takeWhile good = v
  | [], rest, _, hrest => by
    cases rest with
    | nil => rfl
    | cons d ds => simp [List.takeWhile_cons, hrest d rfl]
  | c :: v, rest, hv, hrest => by
    simp [List.takeWhile_cons, hv c (by simp),
      takeWhile_full good v rest (fun x hx => hv x (by simp [hx])) hrest]

theorem extractKey_cons_pos (key : List Char) (good : Char → Bool)
    (c : Char) (cs : List Char) (h : keyGoodAt key good (c :: cs) = true) :
    extractKey key good (c :: cs) =
      some (((c :: cs).drop key.length).takeWhile good) := by
  simp [extractKey, h]

theorem extract_skip (key : List Char) (good : Char → Bool) :
    ∀ (p l : List Char), NoViable key good p l →
      extractKey key good (p ++ l) = extractKey key good l
  | [], _, _ => rfl
  | c :: p, l, h => by
    show extractKey key good (c :: (p ++ l)) = _
    simp only [extractKey, h.1, Bool.false_eq_true, if_false]
    exact extract_skip key good p l h.2

theorem extractChar_skip (key : List Char) (good : Char → Bool) :
    ∀ (p l : List Char), NoViable key good p l →
      extractKeyChar key good (p ++ l) = extractKeyChar key good l
  | [], _, _ => rfl
  | c :: p, l, h => by
    show extractKeyChar key good (c :: (p ++ l)) = _
    have h1 : keyCharAt key good (c :: (p ++ l)) = false := by
      rw [← keyGoodAt_eq_keyCharAt]
      exact h.1
    simp only [extractKeyChar, h1, Bool.false_eq_true, if_false]
    exact extractChar_skip key good p l h.2

theorem extract_at (key : List Char) (good : Char → Bool)
    (v rest : List Char) (hne : v ≠ []) (hv : ∀ c ∈ v, good c = true)
    (hrest : ∀ d, rest.head? = some d → good d = false) :
    extractKey key good (key ++ (v ++ rest)) = some v := by
  have htw : ((v ++ rest).takeWhile good) = v := takeWhile_full good v rest hv hrest
  obtain ⟨a, v', rfl⟩ : ∃ a v', v = a :: v' := by
    cases v with
    | nil => exact absurd rfl hne
    | cons a v' => exact ⟨a, v', rfl⟩
  cases key with
  | nil =>
    rw [List.nil_append]
    have hk : keyGoodAt [] good ((a :: v') ++ rest) = true := by
      unfold keyGoodAt
      simp [List.takeWhile_cons, hv a (by simp), List.isPrefixOf]
    rw [show (a :: v') ++ rest = a :: (v' ++ rest) from rfl] at hk ⊢
    rw [extractKey_cons_pos [] good a (v' ++ rest) hk]
    simpa using htw
  | cons k ks =>
    have hk : keyGoodAt (k :: ks) good ((k :: ks) ++ ((a :: v') ++ rest)) = true := by
      unfold keyGoodAt
      rw [isPrefixOf_append_self]
      rw [show ((k :: ks) : List Char).length = ks.length + 1 from rfl]
      rw [show ((k :: ks) ++ ((a :: v') ++ rest) : List Char) =
        k :: (ks ++ ((a :: v') ++ rest)) from rfl]
      rw [List.drop_succ_cons, List.drop_left]
      simp [List.takeWhile_cons, hv a (by simp)]
    rw [show ((k :: ks) ++ ((a :: v') ++ rest) : List Char) =
      k :: (ks ++ ((a :: v') ++ rest)) from rfl] at hk ⊢
    rw [extractKey_cons_pos (k :: ks) good k (ks ++ ((a :: v') ++ rest)) hk]
    rw [show ((k :: (ks ++ ((a :: v') ++ rest)) : List Char)).drop
      (k :: ks).length = (ks ++ ((a :: v') ++ rest)).drop ks.length from rfl]
    rw [List.drop_left]
    rw [htw]

theorem head_of_takeWhile (good : Char → Bool) (x : List Char)
    (h : ∀ d, x.head? = some d → good d = true) :
    (x.takeWhile good).head? = x.head? := by
  cases x with
  | nil => rfl
  | cons d ds => simp [List.takeWhile_cons, h d rfl]

theorem extractChar_eq_extract (key : List Char) (good : Char → Bool) :
    ∀ l : List Char,
      extractKeyChar key good l = (extractKey key good l).bind List.head?
  | [] => rfl
  | c :: cs => by
    cases h : keyGoodAt key good (c :: cs) with
    | false =>
      have h' : keyCharAt key good (c :: cs) = false := by
        rw [← keyGoodAt_eq_keyCharAt]; exact h
      simp only [extractKey, extractKeyChar, h, h', Bool.false_eq_true, if_false]
      exact extractChar_eq_extract key good cs
    | true =>
      have h' : keyCharAt key good (c :: cs) = true := by
        rw [← keyGoodAt_eq_keyCharAt]; exact h
      simp only [extractKey, extractKeyChar, h, h', if_true, Option.bind_some,
        Option.some_bind]
      have hh : ∀ d, ((c :: cs).drop key.length).head? = some d → good d = true := by
        intro d hd
        unfold keyCharAt at h'
        rw [hd] at h'
        simp only [Bool.and_eq_true] at h'
        exact h'.2
      exact (head_of_takeWhile good _ hh).symm

theorem keyGoodAt_false_of_not_pre (key : List Char) (good : Char → Bool)
    (l : List Char) (h : key.isPrefixOf l = false) :
    keyGoodAt key good l = false := by
  unfold keyGoodAt
  simp [h]

theorem NV_headclass (key : List Char) (good f : Char → Bool) (k : Char)
    (hk : key.head? = some k) (hfk : f k = false) :
    ∀ (v l : List Char), (∀ c ∈ v, f c = true) → NoViable key good v l
  | [], _, _ => trivial
  | c :: v, l, hv => by
    refine ⟨?_, NV_headclass key good f k hk hfk v l
      (fun x hx => hv x (by simp [hx]))⟩
    cases key with
    | nil => exact nomatch hk
    | cons k' ks =>
      have hkk : k' = k := by
        simpa using hk
      subst hkk
      apply keyGoodAt_false_of_not_pre
      have hck : (k' == c) = false := by
        have hne : c ≠ k' := class_ne (hv c (by simp)) hfk
        exact beq_eq_false_iff_ne.mpr (Ne.symm hne)
      simp [List.isPrefixOf, hck]

theorem NV_span (key : List Char) (good : Char → Bool) (hcolon : ':' ∈ key)
    (d : Char) (hd : d ∉ key) (l : List Char) (hl : l.head? = some d) :
    ∀ (v : List Char), (∀ c ∈ v, c ≠ ':') → NoViable key good v l
  | [], _ => trivial
  | c :: v, hv => by
    refine ⟨?_, NV_span key good hcolon d hd l hl v
      (fun x hx => hv x (by simp [hx]))⟩
    cases hb : key.isPrefixOf ((c :: v) ++ l) with
    | false =>
      apply keyGoodAt_false_of_not_pre
      exact hb
    | true =>
      exfalso
      rcases isPrefixOf_append_split key (c :: v) l hb with hp | ⟨hp, hdrop⟩
      · exact hv ':' (isPrefixOf_mem hp ':' hcolon) rfl
      · cases hdd : key.drop (c :: v).length with
        | nil =>
          have h1 : key.length ≤ (c :: v).length := by
            have := congrArg List.length hdd
            simp only [List.length_drop, List.length_nil] at this
            omega
          have h2 : (c :: v) = key := isPrefixOf_eq_of_le hp h1
          exact hv ':' (h2 ▸ hcolon) rfl
        | cons e es =>
          rw [hdd] at hdrop
          cases l with
          | nil => exact nomatch hl
          | cons d' l' =>
            have hdd' : d' = d := by simpa using hl
            have hed : e = d' := by
              simp only [List.isPrefixOf, Bool.and_eq_true, beq_iff_eq] at hdrop
              exact hdrop.1
            have hmem : e ∈ key := by
              have h3 : e ∈ key.drop (c :: v).length := by
                rw [hdd]; simp
              exact List.drop_subset _ _ h3
            rw [hed, hdd'] at hmem
            exact hd hmem

theorem NV_of_litSafe (key : List Char) (good : Char → Bool) :
    ∀ (p l : List Char), litSafeB p key = true → NoViable key good p l
  | [], _, _ => trivial
  | c :: p, l, h => by
    have hh := h
    unfold litSafeB at hh
    rw [show (c :: p).tails = (c :: p) :: p.tails from by
      simp [List.tails]] at hh
    simp only [List.all_cons, Bool.and_eq_true] at hh
    have h1 : (!(c :: p).isPrefixOf key && !key.isPrefixOf (c :: p)) = true := by
      have := hh.1
      simpa [List.isEmpty] using this
    simp only [Bool.and_eq_true, Bool.not_eq_true'] at h1
    refine ⟨?_, NV_of_litSafe key good p l (by
      unfold litSafeB
      exact List.all_eq_true.mpr fun s hs =>
        List.all_eq_true.mp (by unfold litSafeB at h; exact h)
          s (by
            rw [show (c :: p).tails = (c :: p) :: p.tails from by
              simp [List.tails]]
            exact List.mem_cons_of_mem _ hs))⟩
    cases hb : key.isPrefixOf ((c :: p) ++ l) with
    | false => exact keyGoodAt_false_of_not_pre _ _ _ hb
    | true =>
      exfalso
      rcases isPrefixOf_append_split key (c :: p) l hb with hp | ⟨hp, -⟩
      · rw [h1.2] at hp
        exact Bool.noConfusion hp
      · rw [h1.1] at hp
        exact Bool.noConfusion hp

-- ===========================================================================
-- Decimal rendering lemmas
-- ===========================================================================

theorem digitChr_toNat {d : Nat} (h : d < 10) : (digitChr d).toNat = 48 + d := by
  interval_cases d <;> rfl

theorem digitChr_isDigit {d : Nat} (h : d < 10) : (digitChr d).isDigit = true := by
  interval_cases d <;> rfl

theorem digitsFuel_eq : ∀ (fuel n : Nat), n ≤ fuel →
    digitsFuel fuel n = Nat.digits 10 n := by
  intro fuel
  induction fuel with
  | zero =>
    intro n hn
    interval_cases n
    simp [digitsFuel]
  | succ fuel ih =>
    intro n hn
    unfold digitsFuel
    by_cases h : n = 0
    · subst h
      simp
    · rw [if_neg h, ih (n / 10) (by
        have := Nat.div_lt_self (Nat.pos_of_ne_zero h) (by norm_num : 1 < 10)
        omega),
        Nat.digits_def' (by norm_num : 1 < 10) (Nat.pos_of_ne_zero h)]

theorem natStr_ne_nil (n : Nat) : natStr n ≠ [] := by
  unfold natStr
  split
  · simp
  · rename_i hn
    rw [digitsFuel_eq n n le_rfl]
    have hd : Nat.digits 10 n ≠ [] := Nat.digits_ne_nil_iff_ne_zero.mpr hn
    simp [hd]

theorem natStr_all_digits (n : Nat) : ∀ c ∈ natStr n, c.isDigit = true := by
  unfold natStr
  split
  · intro c hc
    simp only [List.mem_singleton] at hc
    subst hc
    rfl
  · rename_i hn
    rw [digitsFuel_eq n n le_rfl]
    intro c hc
    simp only [List.mem_reverse, List.mem_map] at hc
    obtain ⟨d, hd, rfl⟩ := hc
    exact digitChr_isDigit (Nat.digits_lt_base (by norm_num) hd)

theorem digitsVal_natStr (n : Nat) : digitsVal (natStr n) = n := by
  unfold natStr
  split
  · rename_i hn
    subst hn
    rfl
  · rename_i hn
    rw [digitsFuel_eq n n le_rfl]
    unfold digitsVal
    rw [List.foldl_reverse, List.foldr_map]
    have key : ∀ ds : List Nat, (∀ d ∈ ds, d < 10) →
        List.foldr (fun d a => a * 10 + ((digitChr d).toNat - 48)) 0 ds =
          Nat.ofDigits 10 ds := by
      intro ds hds
      induction ds with
      | nil => simp [Nat.ofDigits]
      | cons d ds ih =>
        rw [List.foldr_cons, ih (fun x hx => hds x (by simp [hx])),
          Nat.ofDigits_cons, digitChr_toNat (hds d (by simp))]
        push_cast
        omega
    rw [key _ (fun d hd => Nat.digits_lt_base (by norm_num) hd)]
    exact_mod_cast Nat.ofDigits_digits 10 n

-- ===========================================================================
-- Stripping the trailing newline
-- ===========================================================================

theorem digit_not_pyspace {c : Char} (h : c.isDigit = true) :
    isPySpace c = false := by
  unfold isPySpace
  have h1 : c ≠ ' ' := class_ne h (by decide)
  have h2 : c ≠ '\t' := class_ne h (by decide)
  have h3 : c ≠ '\n' := class_ne h (by decide)
  have h4 : c ≠ '\r' := class_ne h (by decide)
  simp [h1, h2, h3, h4]

theorem strip_back (Y : List Char) (c : Char) (hc : isPySpace c = false)
    (hY : Y.reverse.head? = some c) :
    ((Y ++ ['\n']).reverse.dropWhile isPySpace).reverse = Y := by
  obtain ⟨r, hr⟩ : ∃ r, Y.reverse = c :: r := by
    cases h : Y.reverse with
    | nil => rw [h] at hY; exact nomatch hY
    | cons a r =>
      rw [h] at hY
      simp only [List.head?_cons, Option.some.injEq] at hY
      exact ⟨r, by rw [hY]⟩
  rw [List.reverse_append, hr]
  show (((['\n'] : List Char) ++ (c :: r)).dropWhile isPySpace).reverse = Y
  rw [show ((['\n'] : List Char) ++ (c :: r)) = '\n' :: (c :: r) from rfl]
  rw [List.dropWhile_cons]
  simp only [show isPySpace '\n' = true from rfl, if_true]
  rw [List.dropWhile_cons]
  simp only [hc, Bool.false_eq_true, if_false]
  rw [← hr, List.reverse_reverse]

theorem good_head_false (good : Char → Bool) (e : Char) (l : List Char)
    (hl : l.head? = some e) (he : good e = false) :
    ∀ d, l.head? = some d → good d = false := fun d hd => by
  rw [hl] at hd
  cases hd
  exact he

theorem rev_head_append (x y : List Char) (c : Char)
    (h : y.reverse.head? = some c) : (x ++ y).reverse.head? = some c := by
  rw [List.reverse_append]
  cases hy : y.reverse with
  | nil => rw [hy] at h; exact nomatch h
  | cons a r =>
    rw [hy] at h
    simpa using h

theorem natStr_rev_head (n : Nat) :
    ∃ c r, (natStr n).reverse = c :: r ∧ c.isDigit = true := by
  cases h : (natStr n).reverse with
  | nil =>
    exact absurd (by simpa using congrArg List.reverse h) (natStr_ne_nil n)
  | cons c r =>
    refine ⟨c, r, rfl, natStr_all_digits n c ?_⟩
    rw [← List.mem_reverse, h]
    simp

namespace TwoAgentsAsym

theorem result_line_eq (t : SavedRecord) :
    result_line t = stripped_line t ++ ['\n'] := rfl

set_option maxRecDepth 4000 in
theorem stripped_line_front (t : SavedRecord) :
    stripped_line t = t.timestamp ++ (" | ".data ++ ("Task_ID:".data ++
      (natStr t.task_id ++ (" | ".data ++ tail_u1 t)))) := by
  unfold stripped_line tail_u1 tail_u2 tail_b1 tail_b2 tail_c1 tail_s1
    tail_c2 tail_s2 tail_m
  simp only [List.append_assoc]

theorem stripped_rev_head (t : SavedRecord) :
    ∃ c, (stripped_line t).reverse.head? = some c ∧ c.isDigit = true := by
  obtain ⟨c, r, hcr, hdig⟩ := natStr_rev_head t.mismatch
  refine ⟨c, ?_, hdig⟩
  unfold stripped_line
  apply rev_head_append
  rw [hcr]
  rfl

theorem head_append (x y : List Char) (c : Char) (h : x.head? = some c) :
    (x ++ y).head? = some c := by
  cases x with
  | nil => exact nomatch h
  | cons a l => simpa using h

theorem result_line_head (t : SavedRecord) (c0 : Char) (ts' : List Char)
    (hts : t.timestamp = c0 :: ts') : (result_line t).head? = some c0 := by
  unfold result_line
  repeat apply head_append
  rw [hts]
  rfl

theorem dropWhile_eq_self_of_head (p : Char → Bool) (l : List Char) (c : Char)
    (hc : l.head? = some c) (hpc : p c = false) : l.dropWhile p = l := by
  cases l with
  | nil => rfl
  | cons a l' =>
    have ha : a = c := by simpa using hc
    subst ha
    rw [List.dropWhile_cons]
    simp [hpc]

theorem pyStrip_result_line (t : SavedRecord) (hne : t.timestamp ≠ [])
    (hh : ∀ c, t.timestamp.head? = some c → isPySpace c = false) :
    pyStrip (result_line t) = stripped_line t := by
  obtain ⟨c0, ts', hts⟩ : ∃ c0 ts', t.timestamp = c0 :: ts' := by
    cases h : t.timestamp with
    | nil => exact absurd h hne
    | cons a b => exact ⟨a, b, rfl⟩
  have hc0 : isPySpace c0 = false := hh c0 (by rw [hts]; rfl)
  have hfront : (result_line t).dropWhile isPySpace = result_line t :=
    dropWhile_eq_self_of_head isPySpace _ c0 (result_line_head t c0 ts' hts) hc0
  unfold pyStrip
  rw [hfront, result_line_eq]
  obtain ⟨c, hrev, hdig⟩ := stripped_rev_head t
  exact strip_back (stripped_line t) c (digit_not_pyspace hdig) hrev

theorem isEmpty_false_of_head (l : List Char) (c : Char)
    (h : l.head? = some c) : l.isEmpty = false := by
  cases l with
  | nil => exact nomatch h
  | cons a l' => rfl

theorem stripped_line_head (t : SavedRecord) (c0 : Char) (ts' : List Char)
    (hts : t.timestamp = c0 :: ts') : (stripped_line t).head? = some c0 := by
  unfold stripped_line
  repeat apply head_append
  rw [hts]
  rfl

theorem stripped_line_ne_empty (t : SavedRecord) (hne : t.timestamp ≠ []) :
    (stripped_line t).isEmpty = false := by
  obtain ⟨c0, ts', hts⟩ : ∃ c0 ts', t.timestamp = c0 :: ts' := by
    cases h : t.timestamp with
    | nil => exact absurd h hne
    | cons a b => exact ⟨a, b, rfl⟩
  exact isEmpty_false_of_head _ c0 (stripped_line_head t c0 ts' hts)

theorem skip_front (key : List Char) (good : Char → Bool) (t : SavedRecord)
    (k : Char) (hk : key.head? = some k) (h1 : tsOkB k = false)
    (h2 : k.isDigit = false)
    (hB : litSafeB " | ".data key = true)
    (hT : litSafeB "Task_ID:".data key = true)
    (hts : ∀ c ∈ t.timestamp, tsOkB c = true) :
    extractKey key good (stripped_line t) = extractKey key good (tail_u1 t) := by
  rw [stripped_line_front]
  rw [extract_skip key good t.timestamp _
    (NV_headclass key good tsOkB k hk h1 _ _ hts)]
  rw [extract_skip key good " | ".data _ (NV_of_litSafe key good _ _ hB)]
  rw [extract_skip key good "Task_ID:".data _ (NV_of_litSafe key good _ _ hT)]
  rw [extract_skip key good (natStr t.task_id) _
    (NV_headclass key good (fun c => c.isDigit) k hk h2 _ _
      (natStr_all_digits _))]
  rw [extract_skip key good " | ".data _ (NV_of_litSafe key good _ _ hB)]

theorem skip_u1 (key : List Char) (good : Char → Bool) (t : SavedRecord)
    (k : Char) (hk : key.head? = some k) (hu : isUDigit k = false)
    (hK : litSafeB "Agent1_U_Value:".data key = true)
    (hu1 : ∀ c ∈ t.agent1_u_value, isUDigit c = true) :
    extractKey key good (tail_u1 t) = extractKey key good (tail_u2 t) := by
  unfold tail_u1
  simp only [List.append_assoc]
  rw [extract_skip key good "Agent1_U_Value:".data _
    (NV_of_litSafe key good _ _ hK)]
  rw [extract_skip key good t.agent1_u_value _
    (NV_headclass key good isUDigit k hk hu _ _ hu1)]

theorem skip_u2 (key : List Char) (good : Char → Bool) (t : SavedRecord)
    (k : Char) (hk : key.head? = some k) (hu : isUDigit k = false)
    (hB : litSafeB " | ".data key = true)
    (hK : litSafeB "Agent2_U_Value:".data key = true)
    (hu2 : ∀ c ∈ t.agent2_u_value, isUDigit c = true) :
    extractKey key good (tail_u2 t) = extractKey key good (tail_b1 t) := by
  unfold tail_u2
  simp only [List.append_assoc]
  rw [extract_skip key good " | ".data _ (NV_of_litSafe key good _ _ hB)]
  rw [extract_skip key good "Agent2_U_Value:".data _
    (NV_of_litSafe key good _ _ hK)]
  rw [extract_skip key good t.agent2_u_value _
    (NV_headclass key good isUDigit k hk hu _ _ hu2)]

theorem skip_b1 (key : List Char) (good : Char → Bool) (t : SavedRecord)
    (k : Char) (hk : key.head? = some k) (hd : k.isDigit = false)
    (hB : litSafeB " | ".data key = true)
    (hK : litSafeB "Agent1_Belief:".data key = true) :
    extractKey key good (tail_b1 t) = extractKey key good (tail_b2 t) := by
  unfold tail_b1
  simp only [List.append_assoc]
  rw [extract_skip key good " | ".data _ (NV_of_litSafe key good _ _ hB)]
  rw [extract_skip key good "Agent1_Belief:".data _
    (NV_of_litSafe key good _ _ hK)]
  rw [extract_skip key good (natStr t.agent1_belief) _
    (NV_headclass key good (fun c => c.isDigit) k hk hd _ _
      (natStr_all_digits _))]

theorem skip_b2 (key : List Char) (good : Char → Bool) (t : SavedRecord)
    (k : Char) (hk : key.head? = some k) (hd : k.isDigit = false)
    (hB : litSafeB " | ".data key = true)
    (hK : litSafeB "Agent2_Belief:".data key = true) :
    extractKey key good (tail_b2 t) = extractKey key good (tail_c1 t) := by
  unfold tail_b2
  simp only [List.append_assoc]
  rw [extract_skip key good " | ".data _ (NV_of_litSafe key good _ _ hB)]
  rw [extract_skip key good "Agent2_Belief:".data _
    (NV_of_litSafe key good _ _ hK)]
  rw [extract_skip key good (natStr t.agent2_belief) _
    (NV_headclass key good (fun c => c.isDigit) k hk hd _ _
      (natStr_all_digits _))]

theorem skip_c1 (key : List Char) (good : Char → Bool) (t : SavedRecord)
    (hcolon : ':' ∈ key) (hsp : ' ' ∉ key)
    (hB : litSafeB " | ".data key = true)
    (hK : litSafeB "Agent1_Choice:".data key = true)
    (hch : ∀ c ∈ t.agent1_choice, c ≠ ':') :
    extractKey key good (tail_c1 t) = extractKey key good (tail_s1 t) := by
  unfold tail_c1
  simp only [List.append_assoc]
  rw [extract_skip key good " | ".data _ (NV_of_litSafe key good _ _ hB)]
  rw [extract_skip key good "Agent1_Choice:".data _
    (NV_of_litSafe key good _ _ hK)]
  rw [extract_skip key good t.agent1_choice _
    (NV_span key good hcolon ' ' hsp (tail_s1 t) rfl _ hch)]

theorem skip_s1 (key : List Char) (good : Char → Bool) (t : SavedRecord)
    (hcolon : ':' ∈ key) (hsp : ' ' ∉ key)
    (hB : litSafeB " | ".data key = true)
    (hK : litSafeB "Agent1_Strategy:".data key = true)
    (hs : ∀ c ∈ t.agent1_strategy, c ≠ ':') :
    extractKey key good (tail_s1 t) = extractKey key good (tail_c2 t) := by
  unfold tail_s1
  simp only [List.append_assoc]
  rw [extract_skip key good " | ".data _ (NV_of_litSafe key good _ _ hB)]
  rw [extract_skip key good "Agent1_Strategy:".data _
    (NV_of_litSafe key good _ _ hK)]
  rw [extract_skip key good t.agent1_strategy _
    (NV_span key good hcolon ' ' hsp (tail_c2 t) rfl _ hs)]

theorem skip_c2 (key : List Char) (good : Char → Bool) (t : SavedRecord)
    (hcolon : ':' ∈ key) (hsp : ' ' ∉ key)
    (hB : litSafeB " | ".data key = true)
    (hK : litSafeB "Agent2_Choice:".data key = true)
    (hch : ∀ c ∈ t.agent2_choice, c ≠ ':') :
    extractKey key good (tail_c2 t) = extractKey key good (tail_s2 t) := by
  unfold tail_c2
  simp only [List.append_assoc]
  rw [extract_skip key good " | ".data _ (NV_of_litSafe key good _ _ hB)]
  rw [extract_skip key good "Agent2_Choice:".data _
    (NV_of_litSafe key good _ _ hK)]
  rw [extract_skip key good t.agent2_choice _
    (NV_span key good hcolon ' ' hsp (tail_s2 t) rfl _ hch)]

theorem skip_s2 (key : List Char) (good : Char → Bool) (t : SavedRecord)
    (hcolon : ':' ∈ key) (hsp : ' ' ∉ key)
    (hB : litSafeB " | ".data key = true)
    (hK : litSafeB "Agent2_Strategy:".data key = true)
    (hs : ∀ c ∈ t.agent2_strategy, c ≠ ':') :
    extractKey key good (tail_s2 t) = extractKey key good (tail_m t) := by
  unfold tail_s2
  simp only [List.append_assoc]
  rw [extract_skip key good " | ".data _ (NV_of_litSafe key good _ _ hB)]
  rw [extract_skip key good "Agent2_Strategy:".data _
    (NV_of_litSafe key good _ _ hK)]
  rw [extract_skip key good t.agent2_strategy _
    (NV_span key good hcolon ' ' hsp (tail_m t) rfl _ hs)]

end TwoAgentsAsym

theorem extract_at_end (key : List Char) (good : Char → Bool)
    (v : List Char) (hne : v ≠ []) (hv : ∀ c ∈ v, good c = true) :
    extractKey key good (key ++ v) = some v := by
  have h := extract_at key good v [] hne hv (fun d hd => nomatch hd)
  simpa using h

namespace TwoAgentsAsym

theorem extract_u1 (t : SavedRecord)
    (hts : ∀ c ∈ t.timestamp, tsOkB c = true)
    (hu1ne : t.agent1_u_value ≠ [])
    (hu1 : ∀ c ∈ t.agent1_u_value, isUDigit c = true) :
    extractKey "Agent1_U_Value:".data isUDigit (stripped_line t) =
      some t.agent1_u_value := by
  rw [skip_front "Agent1_U_Value:".data isUDigit t 'A' rfl (by decide)
    (by decide) (by decide) (by decide) hts]
  unfold tail_u1
  simp only [List.append_assoc]
  exact extract_at _ _ _ _ hu1ne hu1
    (good_head_false isUDigit ' ' _ rfl (by decide))

theorem extract_u2 (t : SavedRecord)
    (hts : ∀ c ∈ t.timestamp, tsOkB c = true)
    (hu1 : ∀ c ∈ t.agent1_u_value, isUDigit c = true)
    (hu2ne : t.agent2_u_value ≠ [])
    (hu2 : ∀ c ∈ t.agent2_u_value, isUDigit c = true) :
    extractKey "Agent2_U_Value:".data isUDigit (stripped_line t) =
      some t.agent2_u_value := by
  rw [skip_front "Agent2_U_Value:".data isUDigit t 'A' rfl (by decide)
    (by decide) (by decide) (by decide) hts]
  rw [skip_u1 "Agent2_U_Value:".data isUDigit t 'A' rfl (by decide)
    (by decide) hu1]
  unfold tail_u2
  simp only [List.append_assoc]
  rw [extract_skip "Agent2_U_Value:".data isUDigit " | ".data _
    (NV_of_litSafe _ _ _ _ (by decide))]
  exact extract_at _ _ _ _ hu2ne hu2
    (good_head_false isUDigit ' ' _ rfl (by decide))

theorem extract_b1 (t : SavedRecord)
    (hts : ∀ c ∈ t.timestamp, tsOkB c = true)
    (hu1 : ∀ c ∈ t.agent1_u_value, isUDigit c = true)
    (hu2 : ∀ c ∈ t.agent2_u_value, isUDigit c = true) :
    extractKey "Agent1_Belief:".data isDigitB (stripped_line t) =
      some (natStr t.agent1_belief) := by
  rw [skip_front "Agent1_Belief:".data isDigitB t 'A' rfl (by decide)
    (by decide) (by decide) (by decide) hts]
  rw [skip_u1 "Agent1_Belief:".data isDigitB t 'A' rfl (by decide)
    (by decide) hu1]
  rw [skip_u2 "Agent1_Belief:".data isDigitB t 'A' rfl (by decide)
    (by decide) (by decide) hu2]
  unfold tail_b1
  simp only [List.append_assoc]
  rw [extract_skip "Agent1_Belief:".data isDigitB " | ".data _
    (NV_of_litSafe _ _ _ _ (by decide))]
  exact extract_at _ _ _ _ (natStr_ne_nil _) (fun c hc => natStr_all_digits _ c hc)
    (good_head_false isDigitB ' ' _ rfl (by decide))

theorem extract_b2 (t : SavedRecord)
    (hts : ∀ c ∈ t.timestamp, tsOkB c = true)
    (hu1 : ∀ c ∈ t.agent1_u_value, isUDigit c = true)
    (hu2 : ∀ c ∈ t.agent2_u_value, isUDigit c = true) :
    extractKey "Agent2_Belief:".data isDigitB (stripped_line t) =
      some (natStr t.agent2_belief) := by
  rw [skip_front "Agent2_Belief:".data isDigitB t 'A' rfl (by decide)
    (by decide) (by decide) (by decide) hts]
  rw [skip_u1 "Agent2_Belief:".data isDigitB t 'A' rfl (by decide)
    (by decide) hu1]
  rw [skip_u2 "Agent2_Belief:".data isDigitB t 'A' rfl (by decide)
    (by decide) (by decide) hu2]
  rw [skip_b1 "Agent2_Belief:".data isDigitB t 'A' rfl (by decide)
    (by decide) (by decide)]
  unfold tail_b2
  simp only [List.append_assoc]
  rw [extract_skip "Agent2_Belief:".data isDigitB " | ".data _
    (NV_of_litSafe _ _ _ _ (by decide))]
  exact extract_at _ _ _ _ (natStr_ne_nil _) (fun c hc => natStr_all_digits _ c hc)
    (good_head_false isDigitB ' ' _ rfl (by decide))

theorem extract_c1 (t : SavedRecord)
    (hts : ∀ c ∈ t.timestamp, tsOkB c = true)
    (hu1 : ∀ c ∈ t.agent1_u_value, isUDigit c = true)
    (hu2 : ∀ c ∈ t.agent2_u_value, isUDigit c = true)
    (hc1ne : t.agent1_choice ≠ [])
    (hc1 : ∀ c ∈ t.agent1_choice, isUpperAZ c = true) :
    extractKey "Agent1_Choice:".data isUpperAZ (stripped_line t) =
      some t.agent1_choice := by
  rw [skip_front "Agent1_Choice:".data isUpperAZ t 'A' rfl (by decide)
    (by decide) (by decide) (by decide) hts]
  rw [skip_u1 "Agent1_Choice:".data isUpperAZ t 'A' rfl (by decide)
    (by decide) hu1]
  rw [skip_u2 "Agent1_Choice:".data isUpperAZ t 'A' rfl (by decide)
    (by decide) (by decide) hu2]
  rw [skip_b1 "Agent1_Choice:".data isUpperAZ t 'A' rfl (by decide)
    (by decide) (by decide)]
  rw [skip_b2 "Agent1_Choice:".data isUpperAZ t 'A' rfl (by decide)
    (by decide) (by decide)]
  unfold tail_c1
  simp only [List.append_assoc]
  rw [extract_skip "Agent1_Choice:".data isUpperAZ " | ".data _
    (NV_of_litSafe _ _ _ _ (by decide))]
  exact extract_at _ _ _ _ hc1ne hc1
    (good_head_false isUpperAZ ' ' _ rfl (by decide))

theorem extract_s1 (t : SavedRecord)
    (hts : ∀ c ∈ t.timestamp, tsOkB c = true)
    (hu1 : ∀ c ∈ t.agent1_u_value, isUDigit c = true)
    (hu2 : ∀ c ∈ t.agent2_u_value, isUDigit c = true)
    (hc1 : ∀ c ∈ t.agent1_choice, isUpperAZ c = true)
    (hs1ne : t.agent1_strategy ≠ [])
    (hs1 : ∀ c ∈ t.agent1_strategy, isWordChar c = true) :
    extractKey "Agent1_Strategy:".data isWordChar (stripped_line t) =
      some t.agent1_strategy := by
  rw [skip_front "Agent1_Strategy:".data isWordChar t 'A' rfl (by decide)
    (by decide) (by decide) (by decide) hts]
  rw [skip_u1 "Agent1_Strategy:".data isWordChar t 'A' rfl (by decide)
    (by decide) hu1]
  rw [skip_u2 "Agent1_Strategy:".data isWordChar t 'A' rfl (by decide)
    (by decide) (by decide) hu2]
  rw [skip_b1 "Agent1_Strategy:".data isWordChar t 'A' rfl (by decide)
    (by decide) (by decide)]
  rw [skip_b2 "Agent1_Strategy:".data isWordChar t 'A' rfl (by decide)
    (by decide) (by decide)]
  rw [skip_c1 "Agent1_Strategy:".data isWordChar t (by decide) (by decide)
    (by decide) (by decide)
    (fun c hc => class_ne (hc1 c hc) (by decide))]
  unfold tail_s1
  simp only [List.append_assoc]
  rw [extract_skip "Agent1_Strategy:".data isWordChar " | ".data _
    (NV_of_litSafe _ _ _ _ (by decide))]
  exact extract_at _ _ _ _ hs1ne hs1
    (good_head_false isWordChar ' ' _ rfl (by decide))

theorem extract_c2 (t : SavedRecord)
    (hts : ∀ c ∈ t.timestamp, tsOkB c = true)
    (hu1 : ∀ c ∈ t.agent1_u_value, isUDigit c = true)
    (hu2 : ∀ c ∈ t.agent2_u_value, isUDigit c = true)
    (hc1 : ∀ c ∈ t.agent1_choice, isUpperAZ c = true)
    (hs1 : ∀ c ∈ t.agent1_strategy, isWordChar c = true)
    (hc2ne : t.agent2_choice ≠ [])
    (hc2 : ∀ c ∈ t.agent2_choice, isUpperAZ c = true) :
    extractKey "Agent2_Choice:".data isUpperAZ (stripped_line t) =
      some t.agent2_choice := by
  rw [skip_front "Agent2_Choice:".data isUpperAZ t 'A' rfl (by decide)
    (by decide) (by decide) (by decide) hts]
  rw [skip_u1 "Agent2_Choice:".data isUpperAZ t 'A' rfl (by decide)
    (by decide) hu1]
  rw [skip_u2 "Agent2_Choice:".data isUpperAZ t 'A' rfl (by decide)
    (by decide) (by decide) hu2]
  rw [skip_b1 "Agent2_Choice:".data isUpperAZ t 'A' rfl (by decide)
    (by decide) (by decide)]
  rw [skip_b2 "Agent2_Choice:".data isUpperAZ t 'A' rfl (by decide)
    (by decide) (by decide)]
  rw [skip_c1 "Agent2_Choice:".data isUpperAZ t (by decide) (by decide)
    (by decide) (by decide)
    (fun c hc => class_ne (hc1 c hc) (by decide))]
  rw [skip_s1 "Agent2_Choice:".data isUpperAZ t (by decide) (by decide)
    (by decide) (by decide)
    (fun c hc => class_ne (hs1 c hc) (by decide))]
  unfold tail_c2
  simp only [List.append_assoc]
  rw [extract_skip "Agent2_Choice:".data isUpperAZ " | ".data _
    (NV_of_litSafe _ _ _ _ (by decide))]
  exact extract_at _ _ _ _ hc2ne hc2
    (good_head_false isUpperAZ ' ' _ rfl (by decide))

theorem extract_s2 (t : SavedRecord)
    (hts : ∀ c ∈ t.timestamp, tsOkB c = true)
    (hu1 : ∀ c ∈ t.agent1_u_value, isUDigit c = true)
    (hu2 : ∀ c ∈ t.agent2_u_value, isUDigit c = true)
    (hc1 : ∀ c ∈ t.agent1_choice, isUpperAZ c = true)
    (hs1 : ∀ c ∈ t.agent1_strategy, isWordChar c = true)
    (hc2 : ∀ c ∈ t.agent2_choice, isUpperAZ c = true)
    (hs2ne : t.agent2_strategy ≠ [])
    (hs2 : ∀ c ∈ t.agent2_strategy, isWordChar c = true) :
    extractKey "Agent2_Strategy:".data isWordChar (stripped_line t) =
      some t.agent2_strategy := by
  rw [skip_front "Agent2_Strategy:".data isWordChar t 'A' rfl (by decide)
    (by decide) (by decide) (by decide) hts]
  rw [skip_u1 "Agent2_Strategy:".data isWordChar t 'A' rfl (by decide)
    (by decide) hu1]
  rw [skip_u2 "Agent2_Strategy:".data isWordChar t 'A' rfl (by decide)
    (by decide) (by decide) hu2]
  rw [skip_b1 "Agent2_Strategy:".data isWordChar t 'A' rfl (by decide)
    (by decide) (by decide)]
  rw [skip_b2 "Agent2_Strategy:".data isWordChar t 'A' rfl (by decide)
    (by decide) (by decide)]
  rw [skip_c1 "Agent2_Strategy:".data isWordChar t (by decide) (by decide)
    (by decide) (by decide)
    (fun c hc => class_ne (hc1 c hc) (by decide))]
  rw [skip_s1 "Agent2_Strategy:".data isWordChar t (by decide) (by decide)
    (by decide) (by decide)
    (fun c hc => class_ne (hs1 c hc) (by decide))]
  rw [skip_c2 "Agent2_Strategy:".data isWordChar t (by decide) (by decide)
    (by decide) (by decide)
    (fun c hc => class_ne (hc2 c hc) (by decide))]
  unfold tail_s2
  simp only [List.append_assoc]
  rw [extract_skip "Agent2_Strategy:".data isWordChar " | ".data _
    (NV_of_litSafe _ _ _ _ (by decide))]
  exact extract_at _ _ _ _ hs2ne hs2
    (good_head_false isWordChar ' ' _ rfl (by decide))

theorem extract_m (t : SavedRecord)
    (hts : ∀ c ∈ t.timestamp, tsOkB c = true)
    (hu1 : ∀ c ∈ t.agent1_u_value, isUDigit c = true)
    (hu2 : ∀ c ∈ t.agent2_u_value, isUDigit c = true)
    (hc1 : ∀ c ∈ t.agent1_choice, isUpperAZ c = true)
    (hs1 : ∀ c ∈ t.agent1_strategy, isWordChar c = true)
    (hc2 : ∀ c ∈ t.agent2_choice, isUpperAZ c = true)
    (hs2 : ∀ c ∈ t.agent2_strategy, isWordChar c = true) :
    extractKey "Mismatch:".data isDigitB (stripped_line t) =
      some (natStr t.mismatch) := by
  rw [skip_front "Mismatch:".data isDigitB t 'M' rfl (by decide)
    (by decide) (by decide) (by decide) hts]
  rw [skip_u1 "Mismatch:".data isDigitB t 'M' rfl (by decide)
    (by decide) hu1]
  rw [skip_u2 "Mismatch:".data isDigitB t 'M' rfl (by decide)
    (by decide) (by decide) hu2]
  rw [skip_b1 "Mismatch:".data isDigitB t 'M' rfl (by decide)
    (by decide) (by decide)]
  rw [skip_b2 "Mismatch:".data isDigitB t 'M' rfl (by decide)
    (by decide) (by decide)]
  rw [skip_c1 "Mismatch:".data isDigitB t (by decide) (by decide)
    (by decide) (by decide)
    (fun c hc => class_ne (hc1 c hc) (by decide))]
  rw [skip_s1 "Mismatch:".data isDigitB t (by decide) (by decide)
    (by decide) (by decide)
    (fun c hc => class_ne (hs1 c hc) (by decide))]
  rw [skip_c2 "Mismatch:".data isDigitB t (by decide) (by decide)
    (by decide) (by decide)
    (fun c hc => class_ne (hc2 c hc) (by decide))]
  rw [skip_s2 "Mismatch:".data isDigitB t (by decide) (by decide)
    (by decide) (by decide)
    (fun c hc => class_ne (hs2 c hc) (by decide))]
  unfold tail_m
  simp only [List.append_assoc]
  rw [extract_skip "Mismatch:".data isDigitB " | ".data _
    (NV_of_litSafe _ _ _ _ (by decide))]
  exact extract_at_end _ _ _ (natStr_ne_nil _) (fun c hc => natStr_all_digits _ c hc)

end TwoAgentsAsym

-- ===========================================================================
-- Claim C3: the mismatch flag is raw string inequality
-- ===========================================================================

/-- C3: for every pair of final strategy strings, `check_strategy_mismatch`
(in both the symmetric and the asymmetric source file) returns 1 iff the two
strings differ and 0 iff they are equal, is symmetric in the two agents, and
does so for arbitrary strings: "collaborative" vs "Collaborative" gives 1,
and two equal non-standard strings give 0. -/
theorem claim_C3_mismatch_flag (s1 s2 : String) :
    (TwoAgents.check_strategy_mismatch s1 s2 = 1 ↔ s1 ≠ s2) ∧
    (TwoAgents.check_strategy_mismatch s1 s2 = 0 ↔ s1 = s2) ∧
    TwoAgents.check_strategy_mismatch s1 s2 =
      TwoAgents.check_strategy_mismatch s2 s1 ∧
    TwoAgentsAsym.check_strategy_mismatch s1 s2 =
      TwoAgents.check_strategy_mismatch s1 s2 ∧
    TwoAgents.check_strategy_mismatch "collaborative" "Collaborative" = 1 ∧
    TwoAgents.check_strategy_mismatch "cooperative" "cooperative" = 0 := by
  refine ⟨?_, ?_, ?_, ?_, by decide, by decide⟩
  · unfold TwoAgents.check_strategy_mismatch
    split <;> simp_all
  · unfold TwoAgents.check_strategy_mismatch
    split <;> simp_all
  · unfold TwoAgents.check_strategy_mismatch
    rcases eq_or_ne s1 s2 with h | h
    · subst h; rfl
    · rw [if_pos h, if_pos (Ne.symm h)]
  · rfl

-- ===========================================================================
-- Claim C10: the asymmetric writer and the asymmetric analyzer disagree on
-- the results file name
-- ===========================================================================

/-- C10: the file-name constant the asymmetric protocol appends results to
equals the symmetric variant's results file
("experiment_results_three_exchanges.txt") and differs from the file the
asymmetric analyzer parses ("experiment_results_asymmetric.txt"), so the
asymmetric aggregator reads none of the records the asymmetric trials
persist. -/
theorem claim_C10_results_file_mismatch :
    TwoAgentsAsym.RESULTS_FILE = TwoAgents.RESULTS_FILE ∧
    TwoAgentsAsym.RESULTS_FILE = "experiment_results_three_exchanges.txt" ∧
    AnalyzeAsym.results_file = "experiment_results_asymmetric.txt" ∧
    TwoAgentsAsym.RESULTS_FILE ≠ AnalyzeAsym.results_file := by
  refine ⟨rfl, rfl, rfl, ?_⟩
  decide

-- ===========================================================================
-- Claim C1: inputs of the final decision step
-- ===========================================================================

/-- C1 (counterexample): in the symmetric variant (`two_agents.py`), a
completed trial exists whose agent-1 decision call receives the agent's
*initial* belief (70), not the last entry of its belief sequence (85): the
claim fails as stated over all completed trials. -/
theorem claim_C1_counterexample :
    (TwoAgents.main cexOracleC1).d1_args.own_belief = 70 ∧
    (TwoAgents.agent1_beliefs (TwoAgents.main cexOracleC1)).getLast? = some 85 ∧
    (TwoAgents.agent1_beliefs (TwoAgents.main cexOracleC1)).getLast? ≠
      some (TwoAgents.main cexOracleC1).d1_args.own_belief := by
  refine ⟨rfl, rfl, ?_⟩
  decide

/-- C1 (amended): in the asymmetric variant (`two_agents_asymmetric.py`),
each agent's decision call receives that agent's final belief (the last entry
of its belief sequence), the partner's initial belief, and the complete
ordered message history; in the symmetric variant (`two_agents.py`) the
decision call instead receives the agent's own *initial* belief together with
the partner's initial belief. -/
theorem claim_C1_decision_inputs (o : TwoAgentsAsym.Oracle) (q : TwoAgents.Oracle) :
    (TwoAgentsAsym.agent1_beliefs (TwoAgentsAsym.main o)).getLast? =
      some (TwoAgentsAsym.main o).d1_args.own_updated ∧
    (TwoAgentsAsym.main o).d1_args.partner_initial =
      (TwoAgentsAsym.main o).agent2_belief ∧
    (TwoAgentsAsym.main o).d1_args.history =
      TwoAgentsAsym.messages (TwoAgentsAsym.main o) ∧
    (TwoAgentsAsym.agent2_beliefs (TwoAgentsAsym.main o)).getLast? =
      some (TwoAgentsAsym.main o).d2_args.own_updated ∧
    (TwoAgentsAsym.main o).d2_args.partner_initial =
      (TwoAgentsAsym.main o).agent1_belief ∧
    (TwoAgentsAsym.main o).d2_args.history =
      TwoAgentsAsym.messages (TwoAgentsAsym.main o) ∧
    (TwoAgents.main q).d1_args.own_belief = (TwoAgents.main q).agent1_belief ∧
    (TwoAgents.main q).d1_args.partner_belief = (TwoAgents.main q).agent2_belief ∧
    (TwoAgents.main q).d2_args.own_belief = (TwoAgents.main q).agent2_belief ∧
    (TwoAgents.main q).d2_args.partner_belief = (TwoAgents.main q).agent1_belief :=
  ⟨rfl, rfl, rfl, rfl, rfl, rfl, rfl, rfl, rfl, rfl⟩

-- ===========================================================================
-- Claim C2: inputs and outputs of each exchange step
-- ===========================================================================

/-- C2 (counterexample): in the symmetric variant, agent 2's second reply (an
exchange round with `k ≥ 2`) receives agent 2's *initial* belief (60) although
its most recently updated belief at that point is 75: the claim fails as
stated over all exchange rounds. -/
theorem claim_C2_counterexample :
    (TwoAgents.main cexOracleC2).e3_belief_arg = 60 ∧
    ((TwoAgents.agent2_beliefs (TwoAgents.main cexOracleC2)).take 2).getLast? =
      some 75 ∧
    ((TwoAgents.agent2_beliefs (TwoAgents.main cexOracleC2)).take 2).getLast? ≠
      some (TwoAgents.main cexOracleC2).e3_belief_arg := by
  refine ⟨rfl, rfl, ?_⟩
  decide

/-- C2 (amended): in the asymmetric variant, every exchange call receives the
ordered message history of all strictly prior messages, the responding agent's
most recently updated belief (the last entry of its belief sequence so far),
and — from each agent's second exchange on — that agent's previous prediction
of the partner's belief; each exchange appends exactly one updated belief and
one prediction (agent 1 ends with 1+2 beliefs, agent 2 with 1+3).  In the
symmetric variant every exchange call instead receives the responding agent's
*initial* belief. -/
theorem claim_C2_exchange_inputs (o : TwoAgentsAsym.Oracle) (q : TwoAgents.Oracle) :
    (TwoAgentsAsym.main o).c1.history =
      (TwoAgentsAsym.messages (TwoAgentsAsym.main o)).take 1 ∧
    ((TwoAgentsAsym.agent2_beliefs (TwoAgentsAsym.main o)).take 1).getLast? =
      some (TwoAgentsAsym.main o).c1.own_belief ∧
    (TwoAgentsAsym.main o).c1.previous_prediction = none ∧
    (TwoAgentsAsym.main o).c2.history =
      (TwoAgentsAsym.messages (TwoAgentsAsym.main o)).take 2 ∧
    ((TwoAgentsAsym.agent1_beliefs (TwoAgentsAsym.main o)).take 1).getLast? =
      some (TwoAgentsAsym.main o).c2.own_belief ∧
    (TwoAgentsAsym.main o).c2.previous_prediction = none ∧
    (TwoAgentsAsym.main o).c3.history =
      (TwoAgentsAsym.messages (TwoAgentsAsym.main o)).take 3 ∧
    ((TwoAgentsAsym.agent2_beliefs (TwoAgentsAsym.main o)).take 2).getLast? =
      some (TwoAgentsAsym.main o).c3.own_belief ∧
    (TwoAgentsAsym.main o).c3.previous_prediction =
      ((TwoAgentsAsym.agent2_predictions (TwoAgentsAsym.main o)).take 1).getLast? ∧
    (TwoAgentsAsym.main o).c4.history =
      (TwoAgentsAsym.messages (TwoAgentsAsym.main o)).take 4 ∧
    ((TwoAgentsAsym.agent1_beliefs (TwoAgentsAsym.main o)).take 2).getLast? =
      some (TwoAgentsAsym.main o).c4.own_belief ∧
    (TwoAgentsAsym.main o).c4.previous_prediction =
      ((TwoAgentsAsym.agent1_predictions (TwoAgentsAsym.main o)).take 1).getLast? ∧
    (TwoAgentsAsym.main o).c5.history =
      (TwoAgentsAsym.messages (TwoAgentsAsym.main o)).take 5 ∧
    ((TwoAgentsAsym.agent2_beliefs (TwoAgentsAsym.main o)).take 3).getLast? =
      some (TwoAgentsAsym.main o).c5.own_belief ∧
    (TwoAgentsAsym.main o).c5.previous_prediction =
      ((TwoAgentsAsym.agent2_predictions (TwoAgentsAsym.main o)).take 2).getLast? ∧
    (TwoAgentsAsym.agent1_beliefs (TwoAgentsAsym.main o)).length = 1 + 2 ∧
    (TwoAgentsAsym.agent2_beliefs (TwoAgentsAsym.main o)).length = 1 + 3 ∧
    (TwoAgentsAsym.agent1_predictions (TwoAgentsAsym.main o)).length = 2 ∧
    (TwoAgentsAsym.agent2_predictions (TwoAgentsAsym.main o)).length = 3 ∧
    (TwoAgents.main q).e1_belief_arg = (TwoAgents.main q).agent2_belief ∧
    (TwoAgents.main q).e2_belief_arg = (TwoAgents.main q).agent1_belief ∧
    (TwoAgents.main q).e3_belief_arg = (TwoAgents.main q).agent2_belief ∧
    (TwoAgents.main q).e4_belief_arg = (TwoAgents.main q).agent1_belief ∧
    (TwoAgents.main q).e5_belief_arg = (TwoAgents.main q).agent2_belief :=
  ⟨rfl, rfl, rfl, rfl, rfl, rfl, rfl, rfl, rfl, rfl, rfl, rfl, rfl, rfl, rfl,
   rfl, rfl, rfl, rfl, rfl, rfl, rfl, rfl, rfl⟩

-- ===========================================================================
-- Claim C7: strategy/choice consistency of persisted Decisions
-- ===========================================================================

/-- C7 (counterexample): a trial of the symmetric variant whose agent-1
Decision has choice "Y" (the safe option id, not among the collaborative ids
A/B/C) yet strategy "collaborative" is persisted exactly as-is: the protocol
performs no validation, coercion or fallback. -/
theorem claim_C7_counterexample :
    (TwoAgents.main cexOracleC7).saved.agent1_choice = "Y" ∧
    (TwoAgents.main cexOracleC7).saved.agent1_strategy = "collaborative" ∧
    ("Y" : String) ∉ (["A", "B", "C"] : List String) ∧
    (TwoAgents.main cexOracleC7).saved.agent1_strategy ≠ "individual" := by
  refine ⟨rfl, rfl, by decide, by decide⟩

/-- C7 (amended): the protocol never validates a Decision: for every oracle,
the fields handed to `save_result_to_file` are exactly the `choice` and
`strategy` strings the oracle returned, and the mismatch flag is computed from
those raw strategies. -/
theorem claim_C7_persisted_as_is (o : TwoAgents.Oracle) :
    (TwoAgents.main o).saved.agent1_choice = (TwoAgents.main o).agent1_decision.choice ∧
    (TwoAgents.main o).saved.agent1_strategy = (TwoAgents.main o).agent1_decision.strategy ∧
    (TwoAgents.main o).saved.agent2_choice = (TwoAgents.main o).agent2_decision.choice ∧
    (TwoAgents.main o).saved.agent2_strategy = (TwoAgents.main o).agent2_decision.strategy ∧
    (TwoAgents.main o).saved.mismatch =
      TwoAgents.check_strategy_mismatch (TwoAgents.main o).agent1_decision.strategy
        (TwoAgents.main o).agent2_decision.strategy :=
  ⟨rfl, rfl, rfl, rfl, rfl⟩

-- ===========================================================================
-- Claim C4: the four-way partition invariant of the aggregator
-- ===========================================================================

/-- C4 (counterexample): the asymmetric parser accepts a line whose
`Agent1_Strategy` field is the word "cooperative"; aggregating the resulting
single-record group gives total = 1 but the four outcome counters sum to 0,
so the partition invariant fails for an arbitrary collection of parsed
records. -/
theorem claim_C4_counterexample :
    AnalyzeAsym.parse_results_line cexLineC4 = some cexRecordC4 ∧
    AnalyzeAsym.partition_holdsB
      (AnalyzeAsym.calculate_statistics_for_pair [cexRecordC4]) = false := by
  constructor
  · decide
  · decide

/-- C4 (amended): for every nonempty group of parsed records whose strategy
fields all lie in {"collaborative", "individual"}, the aggregator's four
outcome counters partition the total exactly. -/
theorem claim_C4_partition (rs : List AnalyzeAsym.Record) (h0 : rs ≠ [])
    (h : ∀ r ∈ rs, AnalyzeAsym.strategies_okB r = true) :
    AnalyzeAsym.partition_holdsB
      (AnalyzeAsym.calculate_statistics_for_pair rs) = true := by
  cases rs with
  | nil => exact absurd rfl h0
  | cons r0 rest =>
    show AnalyzeAsym.partition_holdsB (some _) = true
    simp only [AnalyzeAsym.partition_holdsB]
    rw [AnalyzeAsym.foldl_counter (fun s => s.both_collaborative)
        AnalyzeAsym.pBothCollab AnalyzeAsym.update_stats_bc,
      AnalyzeAsym.foldl_counter (fun s => s.both_individual)
        AnalyzeAsym.pBothIndiv AnalyzeAsym.update_stats_bi,
      AnalyzeAsym.foldl_counter (fun s => s.agent1_defects)
        AnalyzeAsym.pDefect1 AnalyzeAsym.update_stats_d1,
      AnalyzeAsym.foldl_counter (fun s => s.agent2_defects)
        AnalyzeAsym.pDefect2 AnalyzeAsym.update_stats_d2,
      AnalyzeAsym.foldl_total]
    simp only [Nat.zero_add, beq_iff_eq]
    exact AnalyzeAsym.countP_partition (r0 :: rest) h

/-- Witness for C4 (amended) at a concrete single-record group. -/
theorem claim_C4_partition_witness :
    ([witRecordC4] : List AnalyzeAsym.Record) ≠ [] ∧
    List.all [witRecordC4] AnalyzeAsym.strategies_okB = true ∧
    AnalyzeAsym.partition_holdsB
      (AnalyzeAsym.calculate_statistics_for_pair [witRecordC4]) = true :=
  ⟨by decide, by decide,
   claim_C4_partition [witRecordC4] (by decide) (by decide)⟩

-- ===========================================================================
-- Claim C5: the defect-direction convention of the aggregator
-- ===========================================================================

/-- C5 (counterexample): aggregating a single record in which agent 1 chose
individual and agent 2 chose collaborative increments `agent1_defects`, not
`agent2_defects` — the source's convention labels the *individually choosing*
agent as the defector, the opposite of the claim. -/
theorem claim_C5_counterexample :
    cexRecordC5.agent1_strategy = "individual".data ∧
    cexRecordC5.agent2_strategy = "collaborative".data ∧
    AnalyzeAsym.calculate_statistics_for_pair [cexRecordC5] = some cexStatsC5 ∧
    cexStatsC5.agent1_defects = 1 ∧
    cexStatsC5.agent2_defects = 0 := by
  refine ⟨rfl, rfl, by decide, rfl, rfl⟩

/-- C5 (amended): for every group, `agent1_defects` counts exactly the records
with agent 1 individual and agent 2 collaborative, and `agent2_defects`
counts exactly the records with agent 1 collaborative and agent 2 individual
(the defector label follows the agent who chose individual). -/
theorem claim_C5_defect_direction (rs : List AnalyzeAsym.Record)
    (s : AnalyzeAsym.Stats)
    (h : AnalyzeAsym.calculate_statistics_for_pair rs = some s) :
    s.agent1_defects = rs.countP AnalyzeAsym.pDefect1 ∧
    s.agent2_defects = rs.countP AnalyzeAsym.pDefect2 := by
  cases rs with
  | nil => simp [AnalyzeAsym.calculate_statistics_for_pair] at h
  | cons r0 rest =>
    unfold AnalyzeAsym.calculate_statistics_for_pair at h
    have hs := Option.some.inj h
    constructor
    · rw [← hs,
        AnalyzeAsym.foldl_counter (fun s => s.agent1_defects)
          AnalyzeAsym.pDefect1 AnalyzeAsym.update_stats_d1]
      simp
    · rw [← hs,
        AnalyzeAsym.foldl_counter (fun s => s.agent2_defects)
          AnalyzeAsym.pDefect2 AnalyzeAsym.update_stats_d2]
      simp

/-- Witness for C5 (amended) at a concrete single-record group. -/
theorem claim_C5_defect_direction_witness :
    AnalyzeAsym.calculate_statistics_for_pair [witRecordC5] = some witStatsC5 ∧
    (witStatsC5.agent1_defects = [witRecordC5].countP AnalyzeAsym.pDefect1 ∧
     witStatsC5.agent2_defects = [witRecordC5].countP AnalyzeAsym.pDefect2) :=
  ⟨by decide, claim_C5_defect_direction [witRecordC5] witStatsC5 (by decide)⟩

-- ===========================================================================
-- Claim C6: fallback behaviour on unparsable oracle responses
-- ===========================================================================

/-- Error propagation in `two_agents.py`: if the first failing `json.loads`
on `main`'s path raises with message `e`, `main` aborts with exactly that
error and persists nothing. -/
theorem mainE_error_of_failsAt (o : TwoAgents.EOracle) (e : String)
    (h : TwoAgents.failsAt o e) : TwoAgents.mainE o = .error e := by
  unfold TwoAgents.failsAt at h
  rcases h with h | ⟨a1b, ha1, h⟩
  · simp only [TwoAgents.mainE, h]
  rcases h with h | ⟨a2b, ha2, h⟩
  · simp only [TwoAgents.mainE, ha1, h]
  rcases h with h | ⟨r1, hr1, h⟩
  · simp only [TwoAgents.mainE, ha1, ha2, h]
  rcases h with h | ⟨r2, hr2, h⟩
  · simp only [TwoAgents.mainE, ha1, ha2, hr1, h]
  rcases h with h | ⟨r3, hr3, h⟩
  · simp only [TwoAgents.mainE, ha1, ha2, hr1, hr2, h]
  rcases h with h | ⟨r4, hr4, h⟩
  · simp only [TwoAgents.mainE, ha1, ha2, hr1, hr2, hr3, h]
  rcases h with h | ⟨r5, hr5, h⟩
  · simp only [TwoAgents.mainE, ha1, ha2, hr1, hr2, hr3, hr4, h]
  rcases h with h | ⟨d1, hd1, h⟩
  · simp only [TwoAgents.mainE, ha1, ha2, hr1, hr2, hr3, hr4, hr5, h]
  · simp only [TwoAgents.mainE, ha1, ha2, hr1, hr2, hr3, hr4, hr5, hd1, h]

/-- Error propagation in `two_agents_asymmetric.py`: if the first failing
`json.loads` on `main`'s path raises with message `e`, `main` aborts with
exactly that error and persists nothing. -/
theorem mainE_asym_error_of_failsAt (o : TwoAgentsAsym.EOracle) (e : String)
    (h : TwoAgentsAsym.failsAt o e) : TwoAgentsAsym.mainE o = .error e := by
  unfold TwoAgentsAsym.failsAt at h
  rcases h with h | ⟨a1b, ha1, h⟩
  · simp only [TwoAgentsAsym.mainE, h]
  rcases h with h | ⟨a2b, ha2, h⟩
  · simp only [TwoAgentsAsym.mainE, ha1, h]
  rcases h with h | ⟨r1, hr1, h⟩
  · simp only [TwoAgentsAsym.mainE, ha1, ha2, h]
  rcases h with h | ⟨r2, hr2, h⟩
  · simp only [TwoAgentsAsym.mainE, ha1, ha2, hr1, h]
  rcases h with h | ⟨r3, hr3, h⟩
  · simp only [TwoAgentsAsym.mainE, ha1, ha2, hr1, hr2, h]
  rcases h with h | ⟨r4, hr4, h⟩
  · simp only [TwoAgentsAsym.mainE, ha1, ha2, hr1, hr2, hr3, h]
  rcases h with h | ⟨r5, hr5, h⟩
  · simp only [TwoAgentsAsym.mainE, ha1, ha2, hr1, hr2, hr3, hr4, h]
  rcases h with h | ⟨d1, hd1, h⟩
  · simp only [TwoAgentsAsym.mainE, ha1, ha2, hr1, hr2, hr3, hr4, hr5, h]
  · simp only [TwoAgentsAsym.mainE, ha1, ha2, hr1, hr2, hr3, hr4, hr5, hd1, h]

/-- C6 (counterexample): in both two-agent variants (`two_agents.py` and
`two_agents_asymmetric.py`), a malformed agent-2 belief response makes the
unhandled `json.loads` exception abort the trial: `main` ends in an error,
no fallback belief is substituted, and no record is persisted (so nothing is
flagged). -/
theorem claim_C6_counterexample :
    TwoAgents.mainE cexEOracleC6 =
      .error "Expecting value: line 1 column 1 (char 0)" ∧
    TwoAgentsAsym.mainE cexAEOracleC6 =
      .error "Expecting value: line 1 column 1 (char 0)" :=
  ⟨rfl, rfl⟩

/-- C6 (amended): only `single_agent.py` implements the fallback: a failed
belief parse yields belief 50 with reasoning "default" and a failed decision
parse yields the safe decision Y/individual with reasoning "parse_error"
(those reasoning strings being the only marks of the substitution), and the
trial completes; in both two-agent variants, whichever `json.loads` call on
`main`'s path is the first to fail, the exception propagates and aborts the
trial with no persisted record. -/
theorem claim_C6_fallbacks (eo : TwoAgents.EOracle) (ao : TwoAgentsAsym.EOracle)
    (e ea : String) (task : SingleAgent.SATask)
    (bp : Except String SingleAgent.BeliefData)
    (dp : Except String TwoAgents.Decision)
    (ebp edp : String) (coop tech : Bool)
    (h1 : TwoAgents.failsAt eo e)
    (h2 : TwoAgentsAsym.failsAt ao ea) :
    TwoAgents.mainE eo = .error e ∧
    TwoAgentsAsym.mainE ao = .error ea ∧
    (SingleAgent.run_single_agent task (.error ebp) dp coop tech).belief = 50 ∧
    (SingleAgent.run_single_agent task (.error ebp) dp coop tech).belief_reasoning
      = "default" ∧
    (SingleAgent.run_single_agent task bp (.error edp) coop tech).decision =
      ⟨"Y", "individual", "parse_error"⟩ ∧
    (SingleAgent.run_single_agent task bp (.error edp) coop tech).outcome =
      "independent" ∧
    (SingleAgent.run_single_agent task bp (.error edp) coop tech).points_earned =
      task.Y_guaranteed := by
  refine ⟨mainE_error_of_failsAt eo e h1, mainE_asym_error_of_failsAt ao ea h2,
    rfl, rfl, rfl, ?_, ?_⟩
  · simp [SingleAgent.run_single_agent]
  · simp [SingleAgent.run_single_agent]

/-- Witness for C6 (amended) at concrete fallible oracles (the symmetric one
failing at the agent-2 belief parse, the asymmetric one failing mid-
conversation at the third exchange reply), a task and parse outcomes. -/
theorem claim_C6_fallbacks_witness :
    TwoAgents.mainE witEOracleC6 =
      .error "Unterminated string starting at: line 1 column 12 (char 11)" ∧
    TwoAgentsAsym.mainE witAEOracleC6 =
      .error "Extra data: line 1 column 5 (char 4)" ∧
    (SingleAgent.run_single_agent witTaskC6 (.error "bad json")
        (.ok ⟨"A", "collaborative", "r"⟩) true true).belief = 50 ∧
    (SingleAgent.run_single_agent witTaskC6 (.error "bad json")
        (.ok ⟨"A", "collaborative", "r"⟩) true true).belief_reasoning = "default" ∧
    (SingleAgent.run_single_agent witTaskC6 (.ok ⟨65, "fine"⟩)
        (.error "bad json") true true).decision =
      ⟨"Y", "individual", "parse_error"⟩ ∧
    (SingleAgent.run_single_agent witTaskC6 (.ok ⟨65, "fine"⟩)
        (.error "bad json") true true).outcome = "independent" ∧
    (SingleAgent.run_single_agent witTaskC6 (.ok ⟨65, "fine"⟩)
        (.error "bad json") true true).points_earned = witTaskC6.Y_guaranteed :=
  claim_C6_fallbacks witEOracleC6 witAEOracleC6
    "Unterminated string starting at: line 1 column 12 (char 11)"
    "Extra data: line 1 column 5 (char 4)" witTaskC6
    (.ok ⟨65, "fine"⟩) (.ok ⟨"A", "collaborative", "r"⟩) "bad json" "bad json"
    true true
    (Or.inr ⟨⟨65, "hello"⟩, rfl, Or.inl rfl⟩)
    (Or.inr ⟨⟨65, "hello"⟩, rfl, Or.inr ⟨⟨55, "n1"⟩, rfl,
      Or.inr ⟨⟨"r1", 61, 71⟩, rfl, Or.inr ⟨⟨"r2", 70, 62⟩, rfl,
        Or.inl rfl⟩⟩⟩⟩)

-- ===========================================================================
-- Claim C8: task creation performs no validation
-- ===========================================================================

/-- C8 (counterexample): `create_task` accepts a u-value outside [0, 1]
without any error — a task is constructed (with `u_value = 3/2`) in both
`two_agents.py` and `single_agent.py`, and `create_asymmetric_tasks` likewise
never fails; no `InvalidTaskError` exists anywhere in the source. -/
theorem claim_C8_counterexample :
    (TwoAgents.create_task 1 (3/2)).u_value = 3/2 ∧
    ¬ ((TwoAgents.create_task 1 (3/2)).u_value ≤ 1) ∧
    (SingleAgent.create_task 1 (3/2)).u_value = 3/2 := by
  refine ⟨rfl, ?_, rfl⟩
  norm_num [TwoAgents.create_task]

/-- C8 (amended): task creation is total and performs no validation at all:
for every id and u-value, `create_task` returns the fixed payoff structure
with that u-value verbatim, and `create_asymmetric_tasks` returns the two
fixed tasks (u-values 0.66 and 0.75) for any id. -/
theorem claim_C8_no_validation (id : Int) (u : ℚ) :
    TwoAgents.create_task id u =
      { task_id := id, A := ⟨111, -90⟩, B := ⟨92, -45⟩, C := ⟨77, -15⟩,
        Y_guaranteed := 50, u_value := u } ∧
    SingleAgent.create_task id u =
      { task_id := id, difficulty := u, A := ⟨111, -90⟩, B := ⟨92, -45⟩,
        C := ⟨77, -15⟩, Y_guaranteed := 50, u_value := u,
        partner_cooperation_rate := 1/2 } ∧
    TwoAgentsAsym.create_asymmetric_tasks id =
      ( { task_id := id, agent_id := 1, A := ⟨111, -90⟩, B := ⟨92, -45⟩,
          C := ⟨77, -15⟩, Y_guaranteed := 50, u_value := 66/100 }
      , { task_id := id, agent_id := 2, K := ⟨90, -90⟩, L := ⟨75, -45⟩,
          M := ⟨65, -15⟩, Y_guaranteed := 45, u_value := 75/100 } ) :=
  ⟨rfl, rfl, rfl⟩

-- ===========================================================================
-- Claim C9: serialize/parse round trip of a trial record
-- ===========================================================================

/-- Characterization of `parse_results_line` on a line whose five required
regex searches succeed: the remaining four optional searches are passed
through into the record unevaluated. -/
theorem parse_line_eq_some (raw u1 u2 s1 s2 m : List Char)
    (h0 : (pyStrip raw).isEmpty = false)
    (h1 : extractKey "Agent1_U_Value:".data isUDigit (pyStrip raw) = some u1)
    (h2 : extractKey "Agent2_U_Value:".data isUDigit (pyStrip raw) = some u2)
    (h3 : extractKey "Agent1_Strategy:".data isWordChar (pyStrip raw) = some s1)
    (h4 : extractKey "Agent2_Strategy:".data isWordChar (pyStrip raw) = some s2)
    (h5 : extractKey "Mismatch:".data isDigitB (pyStrip raw) = some m) :
    AnalyzeAsym.parse_results_line raw =
      some { agent1_u_value := u1
             agent2_u_value := u2
             agent1_belief :=
               (extractKey "Agent1_Belief:".data isDigitB (pyStrip raw)).map digitsVal
             agent2_belief :=
               (extractKey "Agent2_Belief:".data isDigitB (pyStrip raw)).map digitsVal
             agent1_choice :=
               extractKeyChar "Agent1_Choice:".data isUpperAZ (pyStrip raw)
             agent2_choice :=
               extractKeyChar "Agent2_Choice:".data isUpperAZ (pyStrip raw)
             agent1_strategy := s1
             agent2_strategy := s2
             mismatch := digitsVal m } := by
  simp only [AnalyzeAsym.parse_results_line, h0, Bool.false_eq_true, if_false,
    h1, h2, h3, h4, h5]

/-- C9 (counterexample): two saved records that differ only in their
timestamp serialize to different lines, yet parse to exactly the same record:
the parser recovers neither the timestamp nor the task id, so field-for-field
recovery of every written field fails. -/
theorem claim_C9_counterexample :
    AnalyzeAsym.parse_results_line (TwoAgentsAsym.result_line cexRecordC9a) =
      some cexParsedC9 ∧
    AnalyzeAsym.parse_results_line (TwoAgentsAsym.result_line cexRecordC9b) =
      some cexParsedC9 ∧
    cexRecordC9a.timestamp ≠ cexRecordC9b.timestamp := by
  refine ⟨by decide, by decide, by decide⟩

set_option maxHeartbeats 3200000 in
set_option maxRecDepth 8000 in
/-- C9 (amended): for every saved record whose fields lie in the character
classes the regexes expect (timestamp made of digits, '-', ':' and spaces and
starting with a non-space; u-values nonempty over digits and dots; choices a
single uppercase letter; strategies nonempty words), serializing it with
`save_result_to_file`'s line format and re-parsing with the asymmetric
analyzer recovers the u-value numerals, both beliefs, both choices, both
strategies and the mismatch flag exactly; the timestamp and the task id are
written but do not occur in the parsed record at all. -/
theorem claim_C9_roundtrip (t : TwoAgentsAsym.SavedRecord) (ch1 ch2 : Char)
    (hts_ne : t.timestamp ≠ [])
    (hts_head : ∀ c, t.timestamp.head? = some c → isPySpace c = false)
    (hts : ∀ c ∈ t.timestamp, tsOkB c = true)
    (hu1_ne : t.agent1_u_value ≠ [])
    (hu1 : ∀ c ∈ t.agent1_u_value, isUDigit c = true)
    (hu2_ne : t.agent2_u_value ≠ [])
    (hu2 : ∀ c ∈ t.agent2_u_value, isUDigit c = true)
    (hc1 : t.agent1_choice = [ch1]) (hch1 : isUpperAZ ch1 = true)
    (hc2 : t.agent2_choice = [ch2]) (hch2 : isUpperAZ ch2 = true)
    (hs1_ne : t.agent1_strategy ≠ [])
    (hs1 : ∀ c ∈ t.agent1_strategy, isWordChar c = true)
    (hs2_ne : t.agent2_strategy ≠ [])
    (hs2 : ∀ c ∈ t.agent2_strategy, isWordChar c = true) :
    AnalyzeAsym.parse_results_line (TwoAgentsAsym.result_line t) =
      some { agent1_u_value := t.agent1_u_value
             agent2_u_value := t.agent2_u_value
             agent1_belief := some t.agent1_belief
             agent2_belief := some t.agent2_belief
             agent1_choice := some ch1
             agent2_choice := some ch2
             agent1_strategy := t.agent1_strategy
             agent2_strategy := t.agent2_strategy
             mismatch := t.mismatch } := by
  have hc1a : ∀ c ∈ t.agent1_choice, isUpperAZ c = true := by
    rw [hc1]
    intro c hc
    rw [List.mem_singleton.mp hc]
    exact hch1
  have hc2a : ∀ c ∈ t.agent2_choice, isUpperAZ c = true := by
    rw [hc2]
    intro c hc
    rw [List.mem_singleton.mp hc]
    exact hch2
  have hc1ne : t.agent1_choice ≠ [] := by rw [hc1]; simp
  have hc2ne : t.agent2_choice ≠ [] := by rw [hc2]; simp
  have hps := TwoAgentsAsym.pyStrip_result_line t hts_ne hts_head
  have h0 : (pyStrip (TwoAgentsAsym.result_line t)).isEmpty = false := by
    rw [hps]
    exact TwoAgentsAsym.stripped_line_ne_empty t hts_ne
  have h1 : extractKey "Agent1_U_Value:".data isUDigit
      (pyStrip (TwoAgentsAsym.result_line t)) = some t.agent1_u_value := by
    rw [hps]
    exact TwoAgentsAsym.extract_u1 t hts hu1_ne hu1
  have h2 : extractKey "Agent2_U_Value:".data isUDigit
      (pyStrip (TwoAgentsAsym.result_line t)) = some t.agent2_u_value := by
    rw [hps]
    exact TwoAgentsAsym.extract_u2 t hts hu1 hu2_ne hu2
  have h3 : extractKey "Agent1_Strategy:".data isWordChar
      (pyStrip (TwoAgentsAsym.result_line t)) = some t.agent1_strategy := by
    rw [hps]
    exact TwoAgentsAsym.extract_s1 t hts hu1 hu2 hc1a hs1_ne hs1
  have h4 : extractKey "Agent2_Strategy:".data isWordChar
      (pyStrip (TwoAgentsAsym.result_line t)) = some t.agent2_strategy := by
    rw [hps]
    exact TwoAgentsAsym.extract_s2 t hts hu1 hu2 hc1a hs1 hc2a hs2_ne hs2
  have h5 : extractKey "Mismatch:".data isDigitB
      (pyStrip (TwoAgentsAsym.result_line t)) = some (natStr t.mismatch) := by
    rw [hps]
    exact TwoAgentsAsym.extract_m t hts hu1 hu2 hc1a hs1 hc2a hs2
  rw [parse_line_eq_some (TwoAgentsAsym.result_line t) t.agent1_u_value
    t.agent2_u_value t.agent1_strategy t.agent2_strategy (natStr t.mismatch)
    h0 h1 h2 h3 h4 h5]
  rw [hps,
    TwoAgentsAsym.extract_b1 t hts hu1 hu2,
    TwoAgentsAsym.extract_b2 t hts hu1 hu2,
    extractChar_eq_extract, extractChar_eq_extract,
    TwoAgentsAsym.extract_c1 t hts hu1 hu2 hc1ne hc1a,
    TwoAgentsAsym.extract_c2 t hts hu1 hu2 hc1a hs1 hc2ne hc2a,
    hc1, hc2]
  simp [digitsVal_natStr]

/-- Witness for the C9 round trip at a concrete saved record. -/
theorem claim_C9_roundtrip_witness :
    AnalyzeAsym.parse_results_line (TwoAgentsAsym.result_line witRecordC9) =
      some { agent1_u_value := "0.66".data
             agent2_u_value := "0.75".data
             agent1_belief := some 72
             agent2_belief := some 58
             agent1_choice := some 'B'
             agent2_choice := some 'L'
             agent1_strategy := "collaborative".data
             agent2_strategy := "collaborative".data
             mismatch := 0 } :=
  claim_C9_roundtrip witRecordC9 'B' 'L'
    (by decide) (fun c hc => by injection hc with h; subst h; decide)
    (by decide) (by decide) (by decide) (by decide) (by decide)
    rfl (by decide) rfl (by decide)
    (by decide) (by decide) (by decide) (by decide)
